import Mathlib

/-!
Data tables transcribed from src/tree-sitter-amble-script/src/parser.c:
the lexer DFA (ts_lex), lex modes (ts_lex_modes), the LR parse tables
(ts_parse_table, ts_small_parse_table, ts_small_parse_table_map) and the
parse actions (ts_parse_actions). Each entry mirrors one case or row of
the C source.
-/

namespace Amble

/-- A guard on the lookahead character, as in the generated ts_lex cases. -/
inductive Guard where
  | geof : Guard
  | geq : Nat → Guard
  | gne : Nat → Guard
  | gne0 : Guard
  | grange : Nat → Nat → Guard
deriving DecidableEq, Repr

/-- A condition is a disjunction or a conjunction of guards, mirroring the
if-conditions in ts_lex. -/
inductive Cond where
  | cor : List Guard → Cond
  | cand : List Guard → Cond
deriving DecidableEq, Repr

/-- A lexer transition: ADVANCE or SKIP to a DFA state. -/
inductive LexAct where
  | advance : Nat → LexAct
  | skip : Nat → LexAct
deriving DecidableEq, Repr

/-- One ts_lex case: the ACCEPT_TOKEN at entry (if any) and the ordered
guarded transitions. -/
structure LexCase where
  accept : Option Nat
  rules : List (Cond × LexAct)
deriving DecidableEq, Repr

def ts_lex_tableChunk0 : List LexCase :=
  [⟨none, [(.cor [.geof], .advance 314), (.cor [.geq 34], .advance 4), (.cor [.geq 35], .advance 316), (.cor [.geq 39], .advance 18), (.cor [.geq 40], .advance 344), (.cor [.geq 41], .advance 346), (.cor [.geq 44], .advance 345), (.cor [.geq 45], .advance 27), (.cor [.geq 61], .advance 343), (.cor [.geq 97], .advance 50), (.cor [.geq 98], .advance 29), (.cor [.geq 99], .advance 138), (.cor [.geq 100], .advance 91), (.cor [.geq 101], .advance 301), (.cor [.geq 102], .advance 30), (.cor [.geq 103], .advance 218), (.cor [.geq 104], .advance 31), (.cor [.geq 105], .advance 124), (.cor [.geq 108], .advance 90), (.cor [.geq 109], .advance 32), (.cor [.geq 110], .advance 33), (.cor [.geq 111], .advance 186), (.cor [.geq 112], .advance 166), (.cor [.geq 114], .advance 14), (.cor [.geq 115], .advance 94), (.cor [.geq 116], .advance 87), (.cor [.geq 117], .advance 192), (.cor [.geq 118], .advance 147), (.cor [.geq 119], .advance 92), (.cor [.geq 123], .advance 353), (.cor [.geq 125], .advance 354), (.cor [.geq 9, .geq 10, .geq 13, .geq 32], .skip 0), (.cor [.grange 48 57], .advance 329)]⟩,
  ⟨none, [(.cor [.geq 34], .advance 4), (.cor [.geq 35], .advance 315), (.cor [.geq 39], .advance 18), (.cor [.geq 40], .advance 344), (.cor [.geq 41], .advance 346), (.cor [.geq 44], .advance 345), (.cor [.geq 45], .advance 327), (.cor [.geq 114], .advance 318), (.cor [.geq 123], .advance 353), (.cor [.geq 9, .geq 10, .geq 13, .geq 32], .skip 1), (.cor [.grange 48 57], .advance 327), (.cor [.geq 58, .grange 65 90, .geq 95, .grange 97 122], .advance 328)]⟩,
  ⟨none, [(.cor [.geq 34], .advance 4), (.cor [.geq 35], .advance 315), (.cor [.geq 39], .advance 18), (.cor [.geq 45], .advance 327), (.cor [.geq 100], .advance 325), (.cor [.geq 105], .advance 320), (.cor [.geq 114], .advance 318), (.cor [.geq 123], .advance 353), (.cor [.geq 125], .advance 354), (.cor [.geq 9, .geq 10, .geq 13, .geq 32], .skip 2), (.cor [.grange 48 57], .advance 327), (.cor [.geq 58, .grange 65 90, .geq 95, .grange 97 122], .advance 328)]⟩,
  ⟨none, [(.cor [.geq 34], .advance 4), (.cor [.geq 35], .advance 315), (.cor [.geq 39], .advance 18), (.cor [.geq 45], .advance 327), (.cor [.geq 111], .advance 323), (.cor [.geq 114], .advance 318), (.cor [.geq 119], .advance 321), (.cor [.geq 123], .advance 353), (.cor [.geq 9, .geq 10, .geq 13, .geq 32], .skip 3), (.cor [.grange 48 57], .advance 327), (.cor [.geq 58, .grange 65 90, .geq 95, .grange 97 122], .advance 328)]⟩,
  ⟨none, [(.cor [.geq 34], .advance 331), (.cor [.geq 92], .advance 311), (.cand [.gne0, .gne 10], .advance 5)]⟩,
  ⟨none, [(.cor [.geq 34], .advance 330), (.cor [.geq 92], .advance 311), (.cand [.gne0, .gne 10], .advance 5)]⟩,
  ⟨none, [(.cor [.geq 34], .advance 7)]⟩,
  ⟨none, [(.cor [.geq 34], .advance 16), (.cor [.gne0], .advance 7)]⟩,
  ⟨none, [(.cor [.geq 34], .advance 334), (.cor [.gne0], .advance 10)]⟩,
  ⟨none, [(.cor [.geq 34], .advance 335), (.cor [.gne0], .advance 10)]⟩,
  ⟨none, [(.cor [.geq 34], .advance 11), (.cor [.geq 92], .advance 309), (.cor [.gne0], .advance 10)]⟩,
  ⟨none, [(.cor [.geq 34], .advance 8), (.cor [.gne0], .advance 10)]⟩,
  ⟨none, [(.cor [.geq 34], .advance 9), (.cor [.geq 92], .advance 309), (.cor [.gne0], .advance 10)]⟩,
  ⟨none, [(.cor [.geq 35], .advance 316), (.cor [.geq 99], .advance 213), (.cor [.geq 105], .advance 191), (.cor [.geq 111], .advance 226), (.cor [.geq 114], .advance 123), (.cor [.geq 115], .advance 284), (.cor [.geq 9, .geq 10, .geq 13, .geq 32], .skip 13)]⟩,
  ⟨none, [(.cor [.geq 35], .advance 6), (.cor [.geq 97], .advance 193), (.cor [.geq 101], .advance 40), (.cor [.geq 111], .advance 209)]⟩,
  ⟨none, [(.cor [.geq 35], .advance 6), (.cor [.geq 101], .advance 228), (.cor [.geq 111], .advance 208)]⟩]

def ts_lex_tableChunk1 : List LexCase :=
  [⟨none, [(.cor [.geq 35], .advance 338), (.cor [.gne0], .advance 7)]⟩,
  ⟨none, [(.cor [.geq 35], .advance 315), (.cor [.geq 9, .geq 10, .geq 13, .geq 32], .skip 17), (.cor [.geq 45, .grange 48 58, .grange 65 90, .geq 95, .grange 97 122], .advance 328)]⟩,
  ⟨none, [(.cor [.geq 39], .advance 333), (.cor [.geq 92], .advance 312), (.cand [.gne0, .gne 10], .advance 19)]⟩,
  ⟨none, [(.cor [.geq 39], .advance 332), (.cor [.geq 92], .advance 312), (.cand [.gne0, .gne 10], .advance 19)]⟩,
  ⟨none, [(.cor [.geq 39], .advance 23), (.cor [.geq 92], .advance 310), (.cor [.gne0], .advance 20)]⟩,
  ⟨none, [(.cor [.geq 39], .advance 336), (.cor [.gne0], .advance 20)]⟩,
  ⟨none, [(.cor [.geq 39], .advance 337), (.cor [.gne0], .advance 20)]⟩,
  ⟨none, [(.cor [.geq 39], .advance 21), (.cor [.gne0], .advance 20)]⟩,
  ⟨none, [(.cor [.geq 39], .advance 22), (.cor [.geq 92], .advance 310), (.cor [.gne0], .advance 20)]⟩,
  ⟨none, [(.cor [.geq 45], .advance 85)]⟩,
  ⟨none, [(.cor [.geq 62], .advance 372)]⟩,
  ⟨none, [(.cor [.geq 62], .advance 372), (.cor [.grange 48 57], .advance 329)]⟩,
  ⟨none, [(.cor [.geq 95], .advance 127)]⟩,
  ⟨none, [(.cor [.geq 97], .advance 248), (.cor [.geq 111], .advance 235)]⟩,
  ⟨none, [(.cor [.geq 97], .advance 173), (.cor [.geq 108], .advance 34)]⟩,
  ⟨none, [(.cor [.geq 97], .advance 223)]⟩]

def ts_lex_tableChunk2 : List LexCase :=
  [⟨none, [(.cor [.geq 97], .advance 60), (.cor [.geq 105], .advance 256), (.cor [.geq 111], .advance 298)]⟩,
  ⟨none, [(.cor [.geq 97], .advance 181), (.cor [.geq 111], .advance 234), (.cor [.geq 112], .advance 52)]⟩,
  ⟨none, [(.cor [.geq 97], .advance 128)]⟩,
  ⟨none, [(.cor [.geq 97], .advance 240)]⟩,
  ⟨none, [(.cor [.geq 97], .advance 51)]⟩,
  ⟨none, [(.cor [.geq 97], .advance 308)]⟩,
  ⟨none, [(.cor [.geq 97], .advance 167)]⟩,
  ⟨none, [(.cor [.geq 97], .advance 163)]⟩,
  ⟨none, [(.cor [.geq 97], .advance 58), (.cor [.geq 113], .advance 294), (.cor [.geq 115], .advance 280)]⟩,
  ⟨none, [(.cor [.geq 97], .advance 222)]⟩,
  ⟨none, [(.cor [.geq 97], .advance 306)]⟩,
  ⟨none, [(.cor [.geq 97], .advance 164)]⟩,
  ⟨none, [(.cor [.geq 97], .advance 165)]⟩,
  ⟨none, [(.cor [.geq 97], .advance 158)]⟩,
  ⟨none, [(.cor [.geq 97], .advance 134)]⟩,
  ⟨none, [(.cor [.geq 97], .advance 276)]⟩]

def ts_lex_tableChunk3 : List LexCase :=
  [⟨none, [(.cor [.geq 97], .advance 290)]⟩,
  ⟨none, [(.cor [.geq 97], .advance 239)]⟩,
  ⟨none, [(.cor [.geq 98], .advance 142), (.cor [.geq 99], .advance 278)]⟩,
  ⟨none, [(.cor [.geq 98], .advance 171)]⟩,
  ⟨none, [(.cor [.geq 99], .advance 387)]⟩,
  ⟨none, [(.cor [.geq 99], .advance 362)]⟩,
  ⟨none, [(.cor [.geq 99], .advance 361)]⟩,
  ⟨none, [(.cor [.geq 99], .advance 48)]⟩,
  ⟨none, [(.cor [.geq 99], .advance 74), (.cor [.geq 108], .advance 303)]⟩,
  ⟨none, [(.cor [.geq 99], .advance 273)]⟩,
  ⟨none, [(.cor [.geq 99], .advance 141)]⟩,
  ⟨none, [(.cor [.geq 99], .advance 289)]⟩,
  ⟨none, [(.cor [.geq 100], .advance 388)]⟩,
  ⟨none, [(.cor [.geq 100], .advance 370)]⟩,
  ⟨none, [(.cor [.geq 100], .advance 375)]⟩,
  ⟨none, [(.cor [.geq 100], .advance 382)]⟩]

def ts_lex_tableChunk4 : List LexCase :=
  [⟨none, [(.cor [.geq 100], .advance 413)]⟩,
  ⟨none, [(.cor [.geq 100], .advance 364)]⟩,
  ⟨none, [(.cor [.geq 100], .advance 405)]⟩,
  ⟨none, [(.cor [.geq 100], .advance 383)]⟩,
  ⟨none, [(.cor [.geq 100], .advance 28)]⟩,
  ⟨none, [(.cor [.geq 100], .advance 404)]⟩,
  ⟨none, [(.cor [.geq 100], .advance 135)]⟩,
  ⟨none, [(.cor [.geq 100], .advance 274)]⟩,
  ⟨none, [(.cor [.geq 100], .advance 212)]⟩,
  ⟨none, [(.cor [.geq 101], .advance 360)]⟩,
  ⟨none, [(.cor [.geq 101], .advance 350)]⟩,
  ⟨none, [(.cor [.geq 101], .advance 339)]⟩,
  ⟨none, [(.cor [.geq 101], .advance 340)]⟩,
  ⟨none, [(.cor [.geq 101], .advance 392)]⟩,
  ⟨none, [(.cor [.geq 101], .advance 380), (.cor [.geq 117], .advance 249)]⟩,
  ⟨none, [(.cor [.geq 101], .advance 385)]⟩]

def ts_lex_tableChunk5 : List LexCase :=
  [⟨none, [(.cor [.geq 101], .advance 395)]⟩,
  ⟨none, [(.cor [.geq 101], .advance 401)]⟩,
  ⟨none, [(.cor [.geq 101], .advance 414)]⟩,
  ⟨none, [(.cor [.geq 101], .advance 396)]⟩,
  ⟨none, [(.cor [.geq 101], .advance 377)]⟩,
  ⟨none, [(.cor [.geq 101], .advance 125)]⟩,
  ⟨none, [(.cor [.geq 101], .advance 408)]⟩,
  ⟨none, [(.cor [.geq 101], .advance 302), (.cor [.geq 105], .advance 180), (.cor [.geq 114], .advance 144)]⟩,
  ⟨none, [(.cor [.geq 101], .advance 302), (.cor [.geq 114], .advance 143)]⟩,
  ⟨none, [(.cor [.geq 101], .advance 265)]⟩,
  ⟨none, [(.cor [.geq 101], .advance 265), (.cor [.geq 111], .advance 55)]⟩,
  ⟨none, [(.cor [.geq 101], .advance 254), (.cor [.geq 105], .advance 38), (.cor [.geq 111], .advance 357)]⟩,
  ⟨none, [(.cor [.geq 101], .advance 70), (.cor [.geq 104], .advance 98), (.cor [.geq 105], .advance 71)]⟩,
  ⟨none, [(.cor [.geq 101], .advance 187), (.cor [.geq 116], .advance 150)]⟩,
  ⟨none, [(.cor [.geq 101], .advance 266), (.cor [.geq 112], .advance 145), (.cor [.geq 116], .advance 35)]⟩,
  ⟨none, [(.cor [.geq 101], .advance 266), (.cor [.geq 112], .advance 145), (.cor [.geq 116], .advance 49)]⟩]

def ts_lex_tableChunk6 : List LexCase :=
  [⟨none, [(.cor [.geq 101], .advance 176)]⟩,
  ⟨none, [(.cor [.geq 101], .advance 236)]⟩,
  ⟨none, [(.cor [.geq 101], .advance 188)]⟩,
  ⟨none, [(.cor [.geq 101], .advance 61)]⟩,
  ⟨none, [(.cor [.geq 101], .advance 198)]⟩,
  ⟨none, [(.cor [.geq 101], .advance 62)]⟩,
  ⟨none, [(.cor [.geq 101], .advance 230)]⟩,
  ⟨none, [(.cor [.geq 101], .advance 63)]⟩,
  ⟨none, [(.cor [.geq 101], .advance 231)]⟩,
  ⟨none, [(.cor [.geq 101], .advance 64)]⟩,
  ⟨none, [(.cor [.geq 101], .advance 182)]⟩,
  ⟨none, [(.cor [.geq 101], .advance 232)]⟩,
  ⟨none, [(.cor [.geq 101], .advance 65)]⟩,
  ⟨none, [(.cor [.geq 101], .advance 66)]⟩,
  ⟨none, [(.cor [.geq 101], .advance 233)]⟩,
  ⟨none, [(.cor [.geq 101], .advance 67)]⟩]

def ts_lex_tableChunk7 : List LexCase :=
  [⟨none, [(.cor [.geq 101], .advance 68)]⟩,
  ⟨none, [(.cor [.geq 101], .advance 271)]⟩,
  ⟨none, [(.cor [.geq 101], .advance 69)]⟩,
  ⟨none, [(.cor [.geq 101], .advance 260)]⟩,
  ⟨none, [(.cor [.geq 101], .advance 185)]⟩,
  ⟨none, [(.cor [.geq 101], .advance 241)]⟩,
  ⟨none, [(.cor [.geq 101], .advance 257), (.cor [.geq 111], .advance 200)]⟩,
  ⟨none, [(.cor [.geq 101], .advance 258)]⟩,
  ⟨none, [(.cor [.geq 101], .advance 57)]⟩,
  ⟨none, [(.cor [.geq 101], .advance 199)]⟩,
  ⟨none, [(.cor [.geq 101], .advance 286)]⟩,
  ⟨none, [(.cor [.geq 101], .advance 229), (.cor [.geq 111], .advance 220)]⟩,
  ⟨none, [(.cor [.geq 102], .advance 355), (.cor [.geq 110], .advance 416), (.cor [.geq 116], .advance 96)]⟩,
  ⟨none, [(.cor [.geq 102], .advance 126)]⟩,
  ⟨none, [(.cor [.geq 102], .advance 120)]⟩,
  ⟨none, [(.cor [.geq 102], .advance 169), (.cor [.geq 105], .advance 287)]⟩]

def ts_lex_tableChunk8 : List LexCase :=
  [⟨none, [(.cor [.geq 103], .advance 411)]⟩,
  ⟨none, [(.cor [.geq 103], .advance 394)]⟩,
  ⟨none, [(.cor [.geq 103], .advance 412)]⟩,
  ⟨none, [(.cor [.geq 103], .advance 295)]⟩,
  ⟨none, [(.cor [.geq 103], .advance 242)]⟩,
  ⟨none, [(.cor [.geq 103], .advance 136)]⟩,
  ⟨none, [(.cor [.geq 103], .advance 251)]⟩,
  ⟨none, [(.cor [.geq 103], .advance 79)]⟩,
  ⟨none, [(.cor [.geq 103], .advance 107)]⟩,
  ⟨none, [(.cor [.geq 104], .advance 115)]⟩,
  ⟨none, [(.cor [.geq 104], .advance 115), (.cor [.geq 108], .advance 219), (.cor [.geq 111], .advance 175), (.cor [.geq 117], .advance 255)]⟩,
  ⟨none, [(.cor [.geq 104], .advance 386)]⟩,
  ⟨none, [(.cor [.geq 104], .advance 117)]⟩,
  ⟨none, [(.cor [.geq 104], .advance 105)]⟩,
  ⟨none, [(.cor [.geq 105], .advance 172)]⟩,
  ⟨none, [(.cor [.geq 105], .advance 133)]⟩]

def ts_lex_tableChunk9 : List LexCase :=
  [⟨none, [(.cor [.geq 105], .advance 133), (.cor [.geq 117], .advance 75)]⟩,
  ⟨none, [(.cor [.geq 105], .advance 194)]⟩,
  ⟨none, [(.cor [.geq 105], .advance 227)]⟩,
  ⟨none, [(.cor [.geq 105], .advance 262)]⟩,
  ⟨none, [(.cor [.geq 105], .advance 59)]⟩,
  ⟨none, [(.cor [.geq 105], .advance 267)]⟩,
  ⟨none, [(.cor [.geq 105], .advance 214)]⟩,
  ⟨none, [(.cor [.geq 105], .advance 195)]⟩,
  ⟨none, [(.cor [.geq 105], .advance 196)]⟩,
  ⟨none, [(.cor [.geq 105], .advance 288)]⟩,
  ⟨none, [(.cor [.geq 105], .advance 277)]⟩,
  ⟨none, [(.cor [.geq 105], .advance 299)]⟩,
  ⟨none, [(.cor [.geq 105], .advance 216)]⟩,
  ⟨none, [(.cor [.geq 105], .advance 217)]⟩,
  ⟨none, [(.cor [.geq 105], .advance 204)]⟩,
  ⟨none, [(.cor [.geq 105], .advance 245)]⟩]

def ts_lex_tableChunk10 : List LexCase :=
  [⟨none, [(.cor [.geq 105], .advance 246)]⟩,
  ⟨none, [(.cor [.geq 105], .advance 247)]⟩,
  ⟨none, [(.cor [.geq 108], .advance 303)]⟩,
  ⟨none, [(.cor [.geq 108], .advance 402)]⟩,
  ⟨none, [(.cor [.geq 108], .advance 368)]⟩,
  ⟨none, [(.cor [.geq 108], .advance 406)]⟩,
  ⟨none, [(.cor [.geq 108], .advance 37), (.cor [.geq 111], .advance 243), (.cor [.geq 114], .advance 207)]⟩,
  ⟨none, [(.cor [.geq 108], .advance 211)]⟩,
  ⟨none, [(.cor [.geq 108], .advance 42)]⟩,
  ⟨none, [(.cor [.geq 108], .advance 46)]⟩,
  ⟨none, [(.cor [.geq 108], .advance 122)]⟩,
  ⟨none, [(.cor [.geq 108], .advance 84)]⟩,
  ⟨none, [(.cor [.geq 108], .advance 154)]⟩,
  ⟨none, [(.cor [.geq 108], .advance 261)]⟩,
  ⟨none, [(.cor [.geq 109], .advance 225)]⟩,
  ⟨none, [(.cor [.geq 109], .advance 225), (.cor [.geq 110], .advance 281)]⟩]

def ts_lex_tableChunk11 : List LexCase :=
  [⟨none, [(.cor [.geq 109], .advance 376)]⟩,
  ⟨none, [(.cor [.geq 109], .advance 359)]⟩,
  ⟨none, [(.cor [.geq 109], .advance 389)]⟩,
  ⟨none, [(.cor [.geq 109], .advance 391)]⟩,
  ⟨none, [(.cor [.geq 109], .advance 151)]⟩,
  ⟨none, [(.cor [.geq 109], .advance 73)]⟩,
  ⟨none, [(.cor [.geq 109], .advance 252)]⟩,
  ⟨none, [(.cor [.geq 109], .advance 253)]⟩,
  ⟨none, [(.cor [.geq 109], .advance 43)]⟩,
  ⟨none, [(.cor [.geq 109], .advance 121)]⟩,
  ⟨none, [(.cor [.geq 110], .advance 56), (.cor [.geq 112], .advance 93), (.cor [.geq 118], .advance 97)]⟩,
  ⟨none, [(.cor [.geq 110], .advance 381)]⟩,
  ⟨none, [(.cor [.geq 110], .advance 351)]⟩,
  ⟨none, [(.cor [.geq 110], .advance 397)]⟩,
  ⟨none, [(.cor [.geq 110], .advance 363)]⟩,
  ⟨none, [(.cor [.geq 110], .advance 415)]⟩]

def ts_lex_tableChunk12 : List LexCase :=
  [⟨none, [(.cor [.geq 110], .advance 259)]⟩,
  ⟨none, [(.cor [.geq 110], .advance 72)]⟩,
  ⟨none, [(.cor [.geq 110], .advance 202)]⟩,
  ⟨none, [(.cor [.geq 110], .advance 129)]⟩,
  ⟨none, [(.cor [.geq 110], .advance 130)]⟩,
  ⟨none, [(.cor [.geq 110], .advance 162)]⟩,
  ⟨none, [(.cor [.geq 110], .advance 282)]⟩,
  ⟨none, [(.cor [.geq 110], .advance 272)]⟩,
  ⟨none, [(.cor [.geq 110], .advance 86)]⟩,
  ⟨none, [(.cor [.geq 110], .advance 300), (.cor [.geq 116], .advance 96)]⟩,
  ⟨none, [(.cor [.geq 110], .advance 104)]⟩,
  ⟨none, [(.cor [.geq 110], .advance 44)]⟩,
  ⟨none, [(.cor [.geq 110], .advance 110)]⟩,
  ⟨none, [(.cor [.geq 111], .advance 234), (.cor [.geq 112], .advance 52)]⟩,
  ⟨none, [(.cor [.geq 111], .advance 292)]⟩,
  ⟨none, [(.cor [.geq 111], .advance 132)]⟩]

def ts_lex_tableChunk13 : List LexCase :=
  [⟨none, [(.cor [.geq 111], .advance 177)]⟩,
  ⟨none, [(.cor [.geq 111], .advance 177), (.cor [.geq 117], .advance 285)]⟩,
  ⟨none, [(.cor [.geq 111], .advance 178)]⟩,
  ⟨none, [(.cor [.geq 111], .advance 131)]⟩,
  ⟨none, [(.cor [.geq 111], .advance 179)]⟩,
  ⟨none, [(.cor [.geq 111], .advance 174)]⟩,
  ⟨none, [(.cor [.geq 111], .advance 203)]⟩,
  ⟨none, [(.cor [.geq 111], .advance 237)]⟩,
  ⟨none, [(.cor [.geq 111], .advance 189)]⟩,
  ⟨none, [(.cor [.geq 111], .advance 190)]⟩,
  ⟨none, [(.cor [.geq 111], .advance 39), (.cor [.geq 114], .advance 206)]⟩,
  ⟨none, [(.cor [.geq 111], .advance 264)]⟩,
  ⟨none, [(.cor [.geq 111], .advance 183)]⟩,
  ⟨none, [(.cor [.geq 112], .advance 403)]⟩,
  ⟨none, [(.cor [.geq 112], .advance 224)]⟩,
  ⟨none, [(.cor [.geq 112], .advance 224), (.cor [.geq 115], .advance 410)]⟩]

def ts_lex_tableChunk14 : List LexCase :=
  [⟨none, [(.cor [.geq 112], .advance 304)]⟩,
  ⟨none, [(.cor [.geq 112], .advance 170)]⟩,
  ⟨none, [(.cor [.geq 112], .advance 279)]⟩,
  ⟨none, [(.cor [.geq 112], .advance 291)]⟩,
  ⟨none, [(.cor [.geq 113], .advance 296)]⟩,
  ⟨none, [(.cor [.geq 113], .advance 297)]⟩,
  ⟨none, [(.cor [.geq 114], .advance 400)]⟩,
  ⟨none, [(.cor [.geq 114], .advance 384)]⟩,
  ⟨none, [(.cor [.geq 114], .advance 347)]⟩,
  ⟨none, [(.cor [.geq 114], .advance 379)]⟩,
  ⟨none, [(.cor [.geq 114], .advance 184), (.cor [.geq 119], .advance 140)]⟩,
  ⟨none, [(.cor [.geq 114], .advance 99)]⟩,
  ⟨none, [(.cor [.geq 114], .advance 168)]⟩,
  ⟨none, [(.cor [.geq 114], .advance 307)]⟩,
  ⟨none, [(.cor [.geq 114], .advance 148)]⟩,
  ⟨none, [(.cor [.geq 114], .advance 270)]⟩]

def ts_lex_tableChunk15 : List LexCase :=
  [⟨none, [(.cor [.geq 114], .advance 270), (.cor [.geq 116], .advance 78)]⟩,
  ⟨none, [(.cor [.geq 114], .advance 81)]⟩,
  ⟨none, [(.cor [.geq 114], .advance 119)]⟩,
  ⟨none, [(.cor [.geq 114], .advance 283)]⟩,
  ⟨none, [(.cor [.geq 114], .advance 101)]⟩,
  ⟨none, [(.cor [.geq 114], .advance 109)]⟩,
  ⟨none, [(.cor [.geq 114], .advance 112)]⟩,
  ⟨none, [(.cor [.geq 114], .advance 114)]⟩,
  ⟨none, [(.cor [.geq 114], .advance 244)]⟩,
  ⟨none, [(.cor [.geq 115], .advance 25)]⟩,
  ⟨none, [(.cor [.geq 115], .advance 417)]⟩,
  ⟨none, [(.cor [.geq 115], .advance 373)]⟩,
  ⟨none, [(.cor [.geq 115], .advance 374)]⟩,
  ⟨none, [(.cor [.geq 115], .advance 393)]⟩,
  ⟨none, [(.cor [.geq 115], .advance 53)]⟩,
  ⟨none, [(.cor [.geq 115], .advance 275)]⟩]

def ts_lex_tableChunk16 : List LexCase :=
  [⟨none, [(.cor [.geq 115], .advance 263)]⟩,
  ⟨none, [(.cor [.geq 115], .advance 54)]⟩,
  ⟨none, [(.cor [.geq 115], .advance 250)]⟩,
  ⟨none, [(.cor [.geq 115], .advance 113)]⟩,
  ⟨none, [(.cor [.geq 115], .advance 269)]⟩,
  ⟨none, [(.cor [.geq 115], .advance 76)]⟩,
  ⟨none, [(.cor [.geq 115], .advance 153)]⟩,
  ⟨none, [(.cor [.geq 115], .advance 152)]⟩,
  ⟨none, [(.cor [.geq 115], .advance 103)]⟩,
  ⟨none, [(.cor [.geq 116], .advance 341)]⟩,
  ⟨none, [(.cor [.geq 116], .advance 342)]⟩,
  ⟨none, [(.cor [.geq 116], .advance 371)]⟩,
  ⟨none, [(.cor [.geq 116], .advance 367)]⟩,
  ⟨none, [(.cor [.geq 116], .advance 398)]⟩,
  ⟨none, [(.cor [.geq 116], .advance 409)]⟩,
  ⟨none, [(.cor [.geq 116], .advance 366)]⟩]

def ts_lex_tableChunk17 : List LexCase :=
  [⟨none, [(.cor [.geq 116], .advance 390)]⟩,
  ⟨none, [(.cor [.geq 116], .advance 407)]⟩,
  ⟨none, [(.cor [.geq 116], .advance 139)]⟩,
  ⟨none, [(.cor [.geq 116], .advance 210)]⟩,
  ⟨none, [(.cor [.geq 116], .advance 293)]⟩,
  ⟨none, [(.cor [.geq 116], .advance 305)]⟩,
  ⟨none, [(.cor [.geq 116], .advance 155)]⟩,
  ⟨none, [(.cor [.geq 116], .advance 150)]⟩,
  ⟨none, [(.cor [.geq 116], .advance 238)]⟩,
  ⟨none, [(.cor [.geq 116], .advance 45)]⟩,
  ⟨none, [(.cor [.geq 116], .advance 215)]⟩,
  ⟨none, [(.cor [.geq 116], .advance 36)]⟩,
  ⟨none, [(.cor [.geq 116], .advance 47)]⟩,
  ⟨none, [(.cor [.geq 116], .advance 77)]⟩,
  ⟨none, [(.cor [.geq 116], .advance 82)]⟩,
  ⟨none, [(.cor [.geq 116], .advance 106)]⟩]

def ts_lex_tableChunk18 : List LexCase :=
  [⟨none, [(.cor [.geq 116], .advance 108)]⟩,
  ⟨none, [(.cor [.geq 116], .advance 111)]⟩,
  ⟨none, [(.cor [.geq 116], .advance 156)]⟩,
  ⟨none, [(.cor [.geq 116], .advance 157)]⟩,
  ⟨none, [(.cor [.geq 117], .advance 221)]⟩,
  ⟨none, [(.cor [.geq 117], .advance 249)]⟩,
  ⟨none, [(.cor [.geq 117], .advance 159)]⟩,
  ⟨none, [(.cor [.geq 117], .advance 83)]⟩,
  ⟨none, [(.cor [.geq 117], .advance 160)]⟩,
  ⟨none, [(.cor [.geq 117], .advance 161)]⟩,
  ⟨none, [(.cor [.geq 118], .advance 116)]⟩,
  ⟨none, [(.cor [.geq 118], .advance 80)]⟩,
  ⟨none, [(.cor [.geq 118], .advance 100)]⟩,
  ⟨none, [(.cor [.geq 120], .advance 149)]⟩,
  ⟨none, [(.cor [.geq 120], .advance 268)]⟩,
  ⟨none, [(.cor [.geq 121], .advance 348)]⟩]

def ts_lex_tableChunk19 : List LexCase :=
  [⟨none, [(.cor [.geq 121], .advance 369)]⟩,
  ⟨none, [(.cor [.geq 121], .advance 378)]⟩,
  ⟨none, [(.cor [.geq 121], .advance 365)]⟩,
  ⟨none, [(.cor [.geq 121], .advance 399)]⟩,
  ⟨none, [(.cor [.geq 121], .advance 102)]⟩,
  ⟨none, [(.cand [.gne0, .gne 34, .gne 92], .advance 10), (.cor [.geq 34], .advance 12), (.cor [.geq 92], .advance 309)]⟩,
  ⟨none, [(.cand [.gne0, .gne 39, .gne 92], .advance 20), (.cor [.geq 39], .advance 24), (.cor [.geq 92], .advance 310)]⟩,
  ⟨none, [(.cand [.gne0, .gne 10], .advance 5)]⟩,
  ⟨none, [(.cand [.gne0, .gne 10], .advance 19)]⟩,
  ⟨none, [(.cor [.geof], .advance 314), (.cor [.geq 34], .advance 4), (.cor [.geq 35], .advance 316), (.cor [.geq 39], .advance 18), (.cor [.geq 44], .advance 345), (.cor [.geq 45], .advance 26), (.cor [.geq 98], .advance 29), (.cor [.geq 99], .advance 137), (.cor [.geq 100], .advance 118), (.cor [.geq 103], .advance 218), (.cor [.geq 104], .advance 41), (.cor [.geq 105], .advance 201), (.cor [.geq 108], .advance 89), (.cor [.geq 110], .advance 205), (.cor [.geq 111], .advance 197), (.cor [.geq 114], .advance 15), (.cor [.geq 115], .advance 95), (.cor [.geq 116], .advance 88), (.cor [.geq 117], .advance 192), (.cor [.geq 119], .advance 92), (.cor [.geq 123], .advance 353), (.cor [.geq 125], .advance 354), (.cor [.geq 9, .geq 10, .geq 13, .geq 32], .skip 313)]⟩,
  ⟨some 0, []⟩,
  ⟨some 1, [(.cor [.geq 35, .geq 45, .grange 48 58, .grange 65 90, .geq 95, .grange 97 122], .advance 315), (.cand [.gne0, .gne 10], .advance 316)]⟩,
  ⟨some 1, [(.cand [.gne0, .gne 10], .advance 316)]⟩,
  ⟨some 2, [(.cor [.geq 34], .advance 7), (.cor [.geq 35, .geq 45, .grange 48 58, .grange 65 90, .geq 95, .grange 97 122], .advance 328)]⟩,
  ⟨some 2, [(.cor [.geq 35], .advance 317), (.cor [.geq 45, .grange 48 58, .grange 65 90, .geq 95, .grange 97 122], .advance 328)]⟩,
  ⟨some 2, [(.cor [.geq 101], .advance 324), (.cor [.geq 35, .geq 45, .grange 48 58, .grange 65 90, .geq 95, .grange 97 122], .advance 328)]⟩]

def ts_lex_tableChunk20 : List LexCase :=
  [⟨some 2, [(.cor [.geq 102], .advance 356), (.cor [.geq 35, .geq 45, .grange 48 58, .grange 65 90, .geq 95, .grange 97 122], .advance 328)]⟩,
  ⟨some 2, [(.cor [.geq 104], .advance 319), (.cor [.geq 35, .geq 45, .grange 48 58, .grange 65 90, .geq 95, .grange 97 122], .advance 328)]⟩,
  ⟨some 2, [(.cor [.geq 108], .advance 326), (.cor [.geq 35, .geq 45, .grange 48 58, .grange 65 90, .geq 95, .grange 97 122], .advance 328)]⟩,
  ⟨some 2, [(.cor [.geq 110], .advance 322), (.cor [.geq 35, .geq 45, .grange 48 58, .grange 65 90, .geq 95, .grange 97 122], .advance 328)]⟩,
  ⟨some 2, [(.cor [.geq 110], .advance 352), (.cor [.geq 35, .geq 45, .grange 48 58, .grange 65 90, .geq 95, .grange 97 122], .advance 328)]⟩,
  ⟨some 2, [(.cor [.geq 111], .advance 358), (.cor [.geq 35, .geq 45, .grange 48 58, .grange 65 90, .geq 95, .grange 97 122], .advance 328)]⟩,
  ⟨some 2, [(.cor [.geq 121], .advance 349), (.cor [.geq 35, .geq 45, .grange 48 58, .grange 65 90, .geq 95, .grange 97 122], .advance 328)]⟩,
  ⟨some 2, [(.cor [.grange 48 57], .advance 327), (.cor [.geq 35, .geq 45, .geq 58, .grange 65 90, .geq 95, .grange 97 122], .advance 328)]⟩,
  ⟨some 2, [(.cor [.geq 35, .geq 45, .grange 48 58, .grange 65 90, .geq 95, .grange 97 122], .advance 328)]⟩,
  ⟨some 3, [(.cor [.grange 48 57], .advance 329)]⟩,
  ⟨some 4, []⟩,
  ⟨some 4, [(.cor [.geq 34], .advance 10)]⟩,
  ⟨some 5, []⟩,
  ⟨some 5, [(.cor [.geq 39], .advance 20)]⟩,
  ⟨some 6, []⟩,
  ⟨some 6, [(.cor [.geq 34], .advance 334), (.cor [.gne0], .advance 10)]⟩]

def ts_lex_tableChunk21 : List LexCase :=
  [⟨some 7, []⟩,
  ⟨some 7, [(.cor [.geq 39], .advance 336), (.cor [.gne0], .advance 20)]⟩,
  ⟨some 8, []⟩,
  ⟨some 9, []⟩,
  ⟨some 10, []⟩,
  ⟨some 11, []⟩,
  ⟨some 12, []⟩,
  ⟨some 13, []⟩,
  ⟨some 14, []⟩,
  ⟨some 15, []⟩,
  ⟨some 16, []⟩,
  ⟨some 17, []⟩,
  ⟨some 18, []⟩,
  ⟨some 18, [(.cor [.geq 35, .geq 45, .grange 48 58, .grange 65 90, .geq 95, .grange 97 122], .advance 328)]⟩,
  ⟨some 19, []⟩,
  ⟨some 20, []⟩]

def ts_lex_tableChunk22 : List LexCase :=
  [⟨some 20, [(.cor [.geq 35, .geq 45, .grange 48 58, .grange 65 90, .geq 95, .grange 97 122], .advance 328)]⟩,
  ⟨some 21, []⟩,
  ⟨some 22, []⟩,
  ⟨some 23, []⟩,
  ⟨some 23, [(.cor [.geq 35, .geq 45, .grange 48 58, .grange 65 90, .geq 95, .grange 97 122], .advance 328)]⟩,
  ⟨some 24, []⟩,
  ⟨some 24, [(.cor [.geq 35, .geq 45, .grange 48 58, .grange 65 90, .geq 95, .grange 97 122], .advance 328)]⟩,
  ⟨some 25, []⟩,
  ⟨some 26, []⟩,
  ⟨some 27, []⟩,
  ⟨some 27, [(.cor [.geq 114], .advance 146)]⟩,
  ⟨some 28, []⟩,
  ⟨some 29, []⟩,
  ⟨some 30, []⟩,
  ⟨some 31, []⟩,
  ⟨some 32, []⟩]

def ts_lex_tableChunk23 : List LexCase :=
  [⟨some 33, []⟩,
  ⟨some 34, []⟩,
  ⟨some 35, []⟩,
  ⟨some 36, []⟩,
  ⟨some 37, []⟩,
  ⟨some 38, []⟩,
  ⟨some 39, []⟩,
  ⟨some 40, []⟩,
  ⟨some 41, []⟩,
  ⟨some 42, []⟩,
  ⟨some 43, []⟩,
  ⟨some 44, []⟩,
  ⟨some 45, []⟩,
  ⟨some 46, []⟩,
  ⟨some 47, []⟩,
  ⟨some 48, []⟩]

def ts_lex_tableChunk24 : List LexCase :=
  [⟨some 49, []⟩,
  ⟨some 50, []⟩,
  ⟨some 51, []⟩,
  ⟨some 52, []⟩,
  ⟨some 53, []⟩,
  ⟨some 54, []⟩,
  ⟨some 55, []⟩,
  ⟨some 56, []⟩,
  ⟨some 57, []⟩,
  ⟨some 58, []⟩,
  ⟨some 59, []⟩,
  ⟨some 60, []⟩,
  ⟨some 61, []⟩,
  ⟨some 62, []⟩,
  ⟨some 63, []⟩,
  ⟨some 64, []⟩]

def ts_lex_tableChunk25 : List LexCase :=
  [⟨some 65, []⟩,
  ⟨some 66, []⟩,
  ⟨some 67, []⟩,
  ⟨some 68, []⟩,
  ⟨some 69, []⟩,
  ⟨some 69, [(.cor [.geq 95], .advance 127)]⟩,
  ⟨some 70, []⟩,
  ⟨some 71, []⟩,
  ⟨some 72, []⟩,
  ⟨some 73, []⟩,
  ⟨some 74, []⟩,
  ⟨some 75, []⟩,
  ⟨some 76, []⟩,
  ⟨some 77, []⟩,
  ⟨some 78, []⟩,
  ⟨some 79, []⟩]

def ts_lex_tableChunk26 : List LexCase :=
  [⟨some 79, [(.cor [.geq 118], .advance 100)]⟩,
  ⟨some 80, []⟩]

/-- The ts_lex DFA, one entry per case of the C switch, in state order. -/
def ts_lex_table : List LexCase :=
  ts_lex_tableChunk0 ++ ts_lex_tableChunk1 ++ ts_lex_tableChunk2 ++ ts_lex_tableChunk3 ++ ts_lex_tableChunk4 ++ ts_lex_tableChunk5 ++ ts_lex_tableChunk6 ++ ts_lex_tableChunk7 ++ ts_lex_tableChunk8 ++ ts_lex_tableChunk9 ++ ts_lex_tableChunk10 ++ ts_lex_tableChunk11 ++ ts_lex_tableChunk12 ++ ts_lex_tableChunk13 ++ ts_lex_tableChunk14 ++ ts_lex_tableChunk15 ++ ts_lex_tableChunk16 ++ ts_lex_tableChunk17 ++ ts_lex_tableChunk18 ++ ts_lex_tableChunk19 ++ ts_lex_tableChunk20 ++ ts_lex_tableChunk21 ++ ts_lex_tableChunk22 ++ ts_lex_tableChunk23 ++ ts_lex_tableChunk24 ++ ts_lex_tableChunk25 ++ ts_lex_tableChunk26

def ts_lex_modesChunk0 : List Nat :=
  [0,
  0,
  313,
  0,
  0,
  0,
  313,
  313,
  313,
  0,
  0,
  0,
  0,
  0,
  0,
  0,
  0,
  0,
  2,
  0,
  0,
  1,
  1,
  1,
  2,
  1,
  3,
  313,
  313,
  313,
  313,
  313,
  313,
  313,
  3,
  2,
  1,
  0,
  0,
  0,
  0,
  0,
  0,
  0,
  1,
  0,
  3,
  0,
  0,
  0,
  313,
  0,
  0,
  0,
  313,
  313,
  0,
  0,
  1,
  0,
  0,
  0,
  0,
  0]

def ts_lex_modesChunk1 : List Nat :=
  [0,
  0,
  0,
  0,
  0,
  0,
  0,
  0,
  0,
  0,
  0,
  0,
  0,
  0,
  0,
  0,
  0,
  0,
  0,
  0,
  0,
  0,
  0,
  0,
  0,
  0,
  0,
  0,
  0,
  0,
  0,
  0,
  0,
  0,
  0,
  0,
  0,
  0,
  0,
  0,
  0,
  0,
  0,
  1,
  0,
  0,
  0,
  0,
  0,
  1,
  0,
  0,
  0,
  0,
  0,
  0,
  0,
  0,
  0,
  0,
  0,
  0,
  0,
  0]

def ts_lex_modesChunk2 : List Nat :=
  [0,
  0,
  0,
  313,
  313,
  313,
  0,
  313,
  313,
  313,
  0,
  0,
  313,
  0,
  0,
  0,
  313,
  0,
  0,
  13,
  0,
  0,
  0,
  0,
  0,
  0,
  0,
  0,
  0,
  0,
  0,
  0,
  0,
  0,
  0,
  0,
  0,
  0,
  0,
  0,
  0,
  0,
  0,
  0,
  0,
  0,
  0,
  0,
  0,
  0,
  0,
  13,
  0,
  0,
  0,
  0,
  0,
  17,
  17,
  0,
  17,
  0,
  0,
  17]

def ts_lex_modesChunk3 : List Nat :=
  [17,
  17,
  17,
  0,
  17,
  17,
  0,
  0,
  0,
  0,
  0,
  0,
  17,
  0,
  0,
  17,
  17,
  0,
  17,
  0,
  0,
  17,
  0,
  17,
  13,
  0,
  17,
  17,
  17,
  17,
  17]

/-- ts_lex_modes: lex state per parse state. -/
def ts_lex_modes : List Nat :=
  ts_lex_modesChunk0 ++ ts_lex_modesChunk1 ++ ts_lex_modesChunk2 ++ ts_lex_modesChunk3

/-- ts_parse_table row 0: terminal symbol to ts_parse_actions index. -/
def ts_parse_table_acts0 : List (Nat × Nat) :=
  [(0, 1), (1, 3), (3, 1), (4, 1), (5, 1), (6, 1), (7, 1), (8, 1), (9, 1), (10, 1), (11, 1), (12, 1), (13, 1), (14, 1), (15, 1), (16, 1), (17, 1), (18, 1), (19, 1), (20, 1), (21, 1), (22, 1), (23, 1), (24, 1), (25, 1), (26, 1), (27, 1), (28, 1), (29, 1), (30, 1), (31, 1), (32, 1), (33, 1), (34, 1), (35, 1), (36, 1), (37, 1), (38, 1), (39, 1), (40, 1), (41, 1), (42, 1), (43, 1), (44, 1), (45, 1), (46, 1), (47, 1), (48, 1), (49, 1), (50, 1), (51, 1), (52, 1), (53, 1), (54, 1), (55, 1), (56, 1), (57, 1), (59, 1), (60, 1), (61, 1), (62, 1), (63, 1), (64, 1), (65, 1), (66, 1), (67, 1), (68, 1), (69, 1), (70, 1), (71, 1), (73, 1), (74, 1), (75, 1), (76, 1), (77, 1), (78, 1), (79, 1), (80, 1)]

/-- ts_parse_table row 0: nonterminal symbol to goto state. -/
def ts_parse_table_goto0 : List (Nat × Nat) :=
  []

/-- ts_parse_table row 1: terminal symbol to ts_parse_actions index. -/
def ts_parse_table_acts1 : List (Nat × Nat) :=
  [(0, 5), (1, 3), (11, 7), (17, 9), (25, 11), (41, 13), (49, 15), (52, 17), (67, 19)]

/-- ts_parse_table row 1: nonterminal symbol to goto state. -/
def ts_parse_table_goto1 : List (Nat × Nat) :=
  [(81, 217), (84, 10), (86, 10), (95, 10), (110, 10), (121, 10), (124, 10), (133, 10), (140, 10)]

/-- One group of a small parse table state: isAction flag (true for an
ACTIONS entry, false for a goto STATE entry), the index or target state,
and the symbols it covers. -/
structure TGroup where
  isAct : Bool
  val : Nat
  syms : List Nat
deriving DecidableEq, Repr

def ts_small_parse_tableChunk0 : List (List TGroup) :=
  [[⟨true, 3, [1]⟩, ⟨true, 23, [4, 5]⟩, ⟨true, 21, [0, 6, 7, 8, 11, 12, 15, 17, 18, 20, 21, 22, 25, 27, 31, 32, 33, 34, 35, 37, 38, 39, 40, 41, 49, 50, 51, 52, 67, 68, 72, 73]⟩],
  [⟨true, 3, [1]⟩, ⟨true, 25, [22]⟩, ⟨true, 27, [26]⟩, ⟨true, 29, [27]⟩, ⟨true, 31, [28]⟩, ⟨true, 33, [32]⟩, ⟨true, 35, [42]⟩, ⟨true, 37, [43]⟩, ⟨true, 39, [44]⟩, ⟨true, 41, [48]⟩, ⟨true, 43, [62]⟩, ⟨false, 48, [132]⟩, ⟨false, 5, [112, 149]⟩, ⟨false, 49, [113, 114, 115, 116, 117, 118, 119, 120]⟩],
  [⟨true, 3, [1]⟩, ⟨true, 45, [22]⟩, ⟨true, 47, [26]⟩, ⟨true, 50, [27]⟩, ⟨true, 53, [28]⟩, ⟨true, 56, [32]⟩, ⟨true, 59, [42]⟩, ⟨true, 62, [43]⟩, ⟨true, 65, [44]⟩, ⟨true, 68, [48]⟩, ⟨true, 71, [62]⟩, ⟨false, 48, [132]⟩, ⟨false, 4, [112, 149]⟩, ⟨false, 49, [113, 114, 115, 116, 117, 118, 119, 120]⟩],
  [⟨true, 3, [1]⟩, ⟨true, 27, [26]⟩, ⟨true, 29, [27]⟩, ⟨true, 31, [28]⟩, ⟨true, 33, [32]⟩, ⟨true, 35, [42]⟩, ⟨true, 37, [43]⟩, ⟨true, 39, [44]⟩, ⟨true, 41, [48]⟩, ⟨true, 43, [62]⟩, ⟨true, 74, [22]⟩, ⟨false, 48, [132]⟩, ⟨false, 4, [112, 149]⟩, ⟨false, 49, [113, 114, 115, 116, 117, 118, 119, 120]⟩],
  [⟨true, 3, [1]⟩, ⟨true, 78, [27]⟩, ⟨true, 80, [68]⟩, ⟨true, 82, [72]⟩, ⟨true, 84, [73]⟩, ⟨false, 8, [134, 153]⟩, ⟨false, 33, [135, 136, 137, 138]⟩, ⟨true, 76, [0, 11, 17, 25, 41, 49, 52, 67]⟩],
  [⟨true, 3, [1]⟩, ⟨true, 78, [27]⟩, ⟨true, 80, [68]⟩, ⟨true, 82, [72]⟩, ⟨true, 84, [73]⟩, ⟨false, 6, [134, 153]⟩, ⟨false, 33, [135, 136, 137, 138]⟩, ⟨true, 86, [0, 11, 17, 25, 41, 49, 52, 67]⟩],
  [⟨true, 3, [1]⟩, ⟨true, 90, [27]⟩, ⟨true, 93, [68]⟩, ⟨true, 96, [72]⟩, ⟨true, 99, [73]⟩, ⟨false, 8, [134, 153]⟩, ⟨false, 33, [135, 136, 137, 138]⟩, ⟨true, 88, [0, 11, 17, 25, 41, 49, 52, 67]⟩],
  [⟨true, 3, [1]⟩, ⟨true, 43, [62]⟩, ⟨true, 102, [22]⟩, ⟨true, 104, [26]⟩, ⟨true, 106, [27]⟩, ⟨true, 108, [28]⟩, ⟨true, 110, [45]⟩, ⟨true, 112, [55]⟩, ⟨true, 114, [61]⟩, ⟨false, 13, [126, 151]⟩, ⟨false, 74, [127, 128, 129, 130, 131, 132]⟩],
  [⟨true, 3, [1]⟩, ⟨true, 7, [11]⟩, ⟨true, 9, [17]⟩, ⟨true, 11, [25]⟩, ⟨true, 13, [41]⟩, ⟨true, 15, [49]⟩, ⟨true, 17, [52]⟩, ⟨true, 19, [67]⟩, ⟨true, 116, [0]⟩, ⟨false, 14, [84, 86, 95, 110, 121, 124, 133, 140]⟩],
  [⟨true, 3, [1]⟩, ⟨true, 23, [27]⟩, ⟨true, 21, [22, 26, 28, 29, 30, 32, 36, 42, 43, 44, 45, 48, 55, 61, 62]⟩],
  [⟨true, 3, [1]⟩, ⟨true, 118, [22]⟩, ⟨true, 120, [26]⟩, ⟨true, 123, [27]⟩, ⟨true, 126, [28]⟩, ⟨true, 129, [45]⟩, ⟨true, 132, [55]⟩, ⟨true, 135, [61]⟩, ⟨true, 138, [62]⟩, ⟨false, 12, [126, 151]⟩, ⟨false, 74, [127, 128, 129, 130, 131, 132]⟩],
  [⟨true, 3, [1]⟩, ⟨true, 43, [62]⟩, ⟨true, 104, [26]⟩, ⟨true, 106, [27]⟩, ⟨true, 108, [28]⟩, ⟨true, 110, [45]⟩, ⟨true, 112, [55]⟩, ⟨true, 114, [61]⟩, ⟨true, 141, [22]⟩, ⟨false, 12, [126, 151]⟩, ⟨false, 74, [127, 128, 129, 130, 131, 132]⟩],
  [⟨true, 3, [1]⟩, ⟨true, 143, [0]⟩, ⟨true, 145, [11]⟩, ⟨true, 148, [17]⟩, ⟨true, 151, [25]⟩, ⟨true, 154, [41]⟩, ⟨true, 157, [49]⟩, ⟨true, 160, [52]⟩, ⟨true, 163, [67]⟩, ⟨false, 14, [84, 86, 95, 110, 121, 124, 133, 140]⟩],
  [⟨true, 3, [1]⟩, ⟨true, 168, [27]⟩, ⟨true, 166, [22, 26, 28, 29, 30, 32, 36, 42, 43, 44, 45, 48, 55, 61, 62]⟩],
  [⟨true, 3, [1]⟩, ⟨true, 170, [22]⟩, ⟨true, 172, [26]⟩, ⟨true, 174, [27]⟩, ⟨true, 176, [28]⟩, ⟨true, 178, [29]⟩, ⟨true, 180, [30]⟩, ⟨true, 182, [36]⟩, ⟨false, 19, [97, 146]⟩, ⟨false, 105, [98, 99, 100, 101, 104]⟩],
  [⟨true, 3, [1]⟩, ⟨true, 172, [26]⟩, ⟨true, 174, [27]⟩, ⟨true, 176, [28]⟩, ⟨true, 178, [29]⟩, ⟨true, 180, [30]⟩, ⟨true, 182, [36]⟩, ⟨true, 184, [22]⟩, ⟨false, 16, [97, 146]⟩, ⟨false, 105, [98, 99, 100, 101, 104]⟩]]

def ts_small_parse_tableChunk1 : List (List TGroup) :=
  [[⟨true, 3, [1]⟩, ⟨true, 192, [21]⟩, ⟨true, 194, [22]⟩, ⟨false, 145, [92]⟩, ⟨true, 186, [2, 3]⟩, ⟨true, 188, [4, 5]⟩, ⟨true, 196, [23, 24]⟩, ⟨false, 24, [82, 144]⟩, ⟨true, 190, [6, 7, 8]⟩],
  [⟨true, 3, [1]⟩, ⟨true, 198, [22]⟩, ⟨true, 200, [26]⟩, ⟨true, 203, [27]⟩, ⟨true, 206, [28]⟩, ⟨true, 209, [29]⟩, ⟨true, 212, [30]⟩, ⟨true, 215, [36]⟩, ⟨false, 19, [97, 146]⟩, ⟨false, 105, [98, 99, 100, 101, 104]⟩],
  [⟨true, 3, [1]⟩, ⟨true, 220, [27]⟩, ⟨true, 218, [22, 26, 28, 32, 42, 43, 44, 45, 48, 55, 61, 62]⟩],
  [⟨true, 3, [1]⟩, ⟨false, 171, [94]⟩, ⟨true, 222, [2, 3]⟩, ⟨true, 224, [4, 5]⟩, ⟨false, 23, [82, 145]⟩, ⟨true, 226, [6, 7, 8]⟩, ⟨true, 228, [14, 15, 16]⟩],
  [⟨true, 3, [1]⟩, ⟨true, 242, [21]⟩, ⟨true, 230, [2, 3]⟩, ⟨true, 233, [4, 5]⟩, ⟨false, 22, [82, 145]⟩, ⟨true, 236, [6, 7, 8]⟩, ⟨true, 239, [14, 15, 16]⟩],
  [⟨true, 3, [1]⟩, ⟨true, 248, [21]⟩, ⟨true, 224, [4, 5]⟩, ⟨true, 244, [2, 3]⟩, ⟨false, 22, [82, 145]⟩, ⟨true, 226, [6, 7, 8]⟩, ⟨true, 246, [14, 15, 16]⟩],
  [⟨true, 3, [1]⟩, ⟨true, 250, [2, 3]⟩, ⟨true, 253, [4, 5]⟩, ⟨true, 259, [21, 22]⟩, ⟨true, 261, [23, 24]⟩, ⟨false, 24, [82, 144]⟩, ⟨true, 256, [6, 7, 8]⟩],
  [⟨true, 3, [1]⟩, ⟨false, 169, [94]⟩, ⟨true, 222, [2, 3]⟩, ⟨true, 224, [4, 5]⟩, ⟨false, 23, [82, 145]⟩, ⟨true, 226, [6, 7, 8]⟩, ⟨true, 228, [14, 15, 16]⟩],
  [⟨true, 3, [1]⟩, ⟨true, 271, [21]⟩, ⟨true, 263, [2, 3]⟩, ⟨true, 265, [4, 5]⟩, ⟨true, 269, [18, 20]⟩, ⟨false, 34, [82, 144]⟩, ⟨true, 267, [6, 7, 8]⟩],
  [⟨true, 3, [1]⟩, ⟨true, 273, [0, 11, 17, 25, 27, 41, 49, 52, 67, 68, 72, 73]⟩],
  [⟨true, 3, [1]⟩, ⟨true, 275, [0, 11, 17, 25, 27, 41, 49, 52, 67, 68, 72, 73]⟩],
  [⟨true, 3, [1]⟩, ⟨true, 277, [0, 11, 17, 25, 27, 41, 49, 52, 67, 68, 72, 73]⟩],
  [⟨true, 3, [1]⟩, ⟨true, 279, [0, 11, 17, 25, 27, 41, 49, 52, 67, 68, 72, 73]⟩],
  [⟨true, 3, [1]⟩, ⟨true, 281, [0, 11, 17, 25, 27, 41, 49, 52, 67, 68, 72, 73]⟩],
  [⟨true, 3, [1]⟩, ⟨true, 283, [0, 11, 17, 25, 27, 41, 49, 52, 67, 68, 72, 73]⟩],
  [⟨true, 3, [1]⟩, ⟨true, 285, [0, 11, 17, 25, 27, 41, 49, 52, 67, 68, 72, 73]⟩]]

def ts_small_parse_tableChunk2 : List (List TGroup) :=
  [[⟨true, 3, [1]⟩, ⟨true, 259, [21]⟩, ⟨true, 261, [18, 20]⟩, ⟨true, 287, [2, 3]⟩, ⟨true, 290, [4, 5]⟩, ⟨false, 34, [82, 144]⟩, ⟨true, 293, [6, 7, 8]⟩],
  [⟨true, 3, [1]⟩, ⟨true, 21, [6, 7, 8, 21, 22]⟩, ⟨true, 23, [2, 3, 4, 5, 23, 24]⟩],
  [⟨true, 3, [1]⟩, ⟨true, 23, [2, 3, 4, 5]⟩, ⟨true, 21, [6, 7, 8, 14, 15, 16, 21]⟩],
  [⟨true, 3, [1]⟩, ⟨true, 298, [27]⟩, ⟨true, 296, [22, 26, 28, 32, 42, 43, 44, 48, 62]⟩],
  [⟨true, 3, [1]⟩, ⟨true, 302, [27]⟩, ⟨true, 300, [22, 26, 28, 32, 42, 43, 44, 48, 62]⟩],
  [⟨true, 3, [1]⟩, ⟨true, 306, [27]⟩, ⟨true, 308, [59]⟩, ⟨true, 310, [60]⟩, ⟨true, 304, [22, 26, 28, 45, 55, 61, 62]⟩],
  [⟨true, 3, [1]⟩, ⟨true, 314, [27]⟩, ⟨true, 312, [22, 26, 28, 32, 42, 43, 44, 48, 62]⟩],
  [⟨true, 3, [1]⟩, ⟨true, 318, [27]⟩, ⟨true, 316, [22, 26, 28, 32, 42, 43, 44, 48, 62]⟩],
  [⟨true, 3, [1]⟩, ⟨true, 322, [27]⟩, ⟨true, 320, [22, 26, 28, 32, 42, 43, 44, 48, 62]⟩],
  [⟨true, 3, [1]⟩, ⟨true, 326, [27]⟩, ⟨true, 324, [22, 26, 28, 32, 42, 43, 44, 48, 62]⟩],
  [⟨true, 3, [1]⟩, ⟨false, 152, [93]⟩, ⟨true, 265, [4, 5]⟩, ⟨true, 328, [2, 3]⟩, ⟨false, 26, [82, 144]⟩, ⟨true, 267, [6, 7, 8]⟩],
  [⟨true, 3, [1]⟩, ⟨true, 332, [27]⟩, ⟨true, 330, [22, 26, 28, 32, 42, 43, 44, 48, 62]⟩],
  [⟨true, 3, [1]⟩, ⟨true, 21, [6, 7, 8, 21]⟩, ⟨true, 23, [2, 3, 4, 5, 18, 20]⟩],
  [⟨true, 3, [1]⟩, ⟨true, 336, [27]⟩, ⟨true, 338, [59]⟩, ⟨true, 340, [60]⟩, ⟨true, 334, [22, 26, 28, 45, 55, 61, 62]⟩],
  [⟨true, 3, [1]⟩, ⟨true, 344, [27]⟩, ⟨true, 342, [22, 26, 28, 32, 42, 43, 44, 48, 62]⟩],
  [⟨true, 3, [1]⟩, ⟨true, 348, [27]⟩, ⟨true, 346, [22, 26, 28, 32, 42, 43, 44, 48, 62]⟩]]

def ts_small_parse_tableChunk3 : List (List TGroup) :=
  [[⟨true, 3, [1]⟩, ⟨true, 350, [22]⟩, ⟨true, 352, [38]⟩, ⟨true, 354, [39]⟩, ⟨true, 356, [40]⟩, ⟨false, 55, [106, 148]⟩, ⟨false, 140, [107, 108, 109]⟩],
  [⟨true, 3, [1]⟩, ⟨true, 360, [22]⟩, ⟨false, 57, [103, 147]⟩, ⟨true, 358, [12, 31, 32, 33, 34, 35]⟩],
  [⟨true, 3, [1]⟩, ⟨true, 364, [27]⟩, ⟨true, 366, [60]⟩, ⟨true, 362, [22, 26, 28, 45, 55, 61, 62]⟩],
  [⟨true, 3, [1]⟩, ⟨true, 370, [27]⟩, ⟨true, 372, [60]⟩, ⟨true, 368, [22, 26, 28, 45, 55, 61, 62]⟩],
  [⟨true, 3, [1]⟩, ⟨true, 374, [22]⟩, ⟨true, 376, [38]⟩, ⟨true, 379, [39]⟩, ⟨true, 382, [40]⟩, ⟨false, 54, [106, 148]⟩, ⟨false, 140, [107, 108, 109]⟩],
  [⟨true, 3, [1]⟩, ⟨true, 352, [38]⟩, ⟨true, 354, [39]⟩, ⟨true, 356, [40]⟩, ⟨true, 385, [22]⟩, ⟨false, 54, [106, 148]⟩, ⟨false, 140, [107, 108, 109]⟩],
  [⟨true, 3, [1]⟩, ⟨true, 390, [22]⟩, ⟨false, 56, [103, 147]⟩, ⟨true, 387, [12, 31, 32, 33, 34, 35]⟩],
  [⟨true, 3, [1]⟩, ⟨true, 392, [22]⟩, ⟨false, 56, [103, 147]⟩, ⟨true, 358, [12, 31, 32, 33, 34, 35]⟩],
  [⟨true, 3, [1]⟩, ⟨true, 188, [4, 5]⟩, ⟨true, 394, [2, 3]⟩, ⟨false, 18, [82, 144]⟩, ⟨true, 190, [6, 7, 8]⟩],
  [⟨true, 3, [1]⟩, ⟨true, 396, [21]⟩, ⟨true, 400, [27]⟩, ⟨false, 102, [105]⟩, ⟨true, 398, [22, 26, 28, 29, 30, 36]⟩],
  [⟨true, 3, [1]⟩, ⟨true, 402, [0, 11, 17, 25, 41, 49, 52, 67]⟩],
  [⟨true, 3, [1]⟩, ⟨true, 404, [0, 11, 17, 25, 41, 49, 52, 67]⟩],
  [⟨true, 3, [1]⟩, ⟨true, 410, [22]⟩, ⟨true, 406, [4, 5]⟩, ⟨false, 66, [82, 152]⟩, ⟨true, 408, [6, 7, 8]⟩],
  [⟨true, 3, [1]⟩, ⟨true, 410, [22]⟩, ⟨true, 406, [4, 5]⟩, ⟨false, 65, [82, 152]⟩, ⟨true, 408, [6, 7, 8]⟩],
  [⟨true, 3, [1]⟩, ⟨true, 414, [27]⟩, ⟨true, 412, [22, 26, 28, 45, 55, 61, 62]⟩],
  [⟨true, 3, [1]⟩, ⟨true, 422, [22]⟩, ⟨true, 416, [4, 5]⟩, ⟨false, 65, [82, 152]⟩, ⟨true, 419, [6, 7, 8]⟩]]

def ts_small_parse_tableChunk4 : List (List TGroup) :=
  [[⟨true, 3, [1]⟩, ⟨true, 424, [22]⟩, ⟨true, 406, [4, 5]⟩, ⟨false, 65, [82, 152]⟩, ⟨true, 408, [6, 7, 8]⟩],
  [⟨true, 3, [1]⟩, ⟨true, 426, [0, 11, 17, 25, 41, 49, 52, 67]⟩],
  [⟨true, 3, [1]⟩, ⟨true, 430, [27]⟩, ⟨true, 428, [22, 26, 28, 45, 55, 61, 62]⟩],
  [⟨true, 3, [1]⟩, ⟨true, 432, [0, 11, 17, 25, 41, 49, 52, 67]⟩],
  [⟨true, 3, [1]⟩, ⟨true, 436, [27]⟩, ⟨true, 434, [22, 26, 28, 45, 55, 61, 62]⟩],
  [⟨true, 3, [1]⟩, ⟨true, 438, [0, 11, 17, 25, 41, 49, 52, 67]⟩],
  [⟨true, 3, [1]⟩, ⟨true, 440, [0, 11, 17, 25, 41, 49, 52, 67]⟩],
  [⟨true, 3, [1]⟩, ⟨true, 442, [0, 11, 17, 25, 41, 49, 52, 67]⟩],
  [⟨true, 3, [1]⟩, ⟨true, 446, [27]⟩, ⟨true, 444, [22, 26, 28, 45, 55, 61, 62]⟩],
  [⟨true, 3, [1]⟩, ⟨true, 448, [0, 11, 17, 25, 41, 49, 52, 67]⟩],
  [⟨true, 3, [1]⟩, ⟨true, 450, [0, 11, 17, 25, 41, 49, 52, 67]⟩],
  [⟨true, 3, [1]⟩, ⟨true, 452, [22]⟩, ⟨true, 406, [4, 5]⟩, ⟨false, 63, [82, 152]⟩, ⟨true, 408, [6, 7, 8]⟩],
  [⟨true, 3, [1]⟩, ⟨true, 456, [27]⟩, ⟨true, 454, [22, 26, 28, 45, 55, 61, 62]⟩],
  [⟨true, 3, [1]⟩, ⟨true, 460, [27]⟩, ⟨true, 458, [22, 26, 28, 45, 55, 61, 62]⟩],
  [⟨true, 3, [1]⟩, ⟨true, 462, [0, 11, 17, 25, 41, 49, 52, 67]⟩],
  [⟨true, 3, [1]⟩, ⟨true, 466, [27]⟩, ⟨true, 464, [22, 26, 28, 45, 55, 61, 62]⟩]]

def ts_small_parse_tableChunk5 : List (List TGroup) :=
  [[⟨true, 3, [1]⟩, ⟨true, 470, [27]⟩, ⟨true, 468, [22, 26, 28, 45, 55, 61, 62]⟩],
  [⟨true, 3, [1]⟩, ⟨true, 472, [0, 11, 17, 25, 41, 49, 52, 67]⟩],
  [⟨true, 3, [1]⟩, ⟨true, 364, [27]⟩, ⟨true, 362, [22, 26, 28, 45, 55, 61, 62]⟩],
  [⟨true, 3, [1]⟩, ⟨true, 370, [27]⟩, ⟨true, 368, [22, 26, 28, 45, 55, 61, 62]⟩],
  [⟨true, 3, [1]⟩, ⟨true, 474, [0, 11, 17, 25, 41, 49, 52, 67]⟩],
  [⟨true, 3, [1]⟩, ⟨true, 476, [0, 11, 17, 25, 41, 49, 52, 67]⟩],
  [⟨true, 3, [1]⟩, ⟨true, 478, [0, 11, 17, 25, 41, 49, 52, 67]⟩],
  [⟨true, 3, [1]⟩, ⟨true, 480, [0, 11, 17, 25, 41, 49, 52, 67]⟩],
  [⟨true, 3, [1]⟩, ⟨true, 484, [27]⟩, ⟨true, 482, [22, 26, 28, 45, 55, 61, 62]⟩],
  [⟨true, 3, [1]⟩, ⟨true, 486, [0, 11, 17, 25, 41, 49, 52, 67]⟩],
  [⟨true, 3, [1]⟩, ⟨true, 490, [27]⟩, ⟨true, 488, [22, 26, 28, 45, 55, 61, 62]⟩],
  [⟨true, 3, [1]⟩, ⟨true, 492, [0, 11, 17, 25, 41, 49, 52, 67]⟩],
  [⟨true, 3, [1]⟩, ⟨true, 494, [0, 11, 17, 25, 41, 49, 52, 67]⟩],
  [⟨true, 3, [1]⟩, ⟨true, 496, [0, 11, 17, 25, 41, 49, 52, 67]⟩],
  [⟨true, 3, [1]⟩, ⟨true, 498, [22]⟩, ⟨true, 500, [23]⟩, ⟨true, 502, [24]⟩, ⟨false, 111, [89, 143]⟩, ⟨false, 153, [90, 91]⟩],
  [⟨true, 3, [1]⟩, ⟨true, 506, [27]⟩, ⟨true, 504, [22, 26, 28, 29, 30, 36]⟩]]

def ts_small_parse_tableChunk6 : List (List TGroup) :=
  [[⟨true, 3, [1]⟩, ⟨true, 510, [27]⟩, ⟨true, 508, [22, 26, 28, 29, 30, 36]⟩],
  [⟨true, 3, [1]⟩, ⟨true, 500, [23]⟩, ⟨true, 502, [24]⟩, ⟨true, 512, [22]⟩, ⟨false, 109, [89, 143]⟩, ⟨false, 153, [90, 91]⟩],
  [⟨true, 3, [1]⟩, ⟨true, 516, [27]⟩, ⟨true, 514, [22, 26, 28, 29, 30, 36]⟩],
  [⟨true, 3, [1]⟩, ⟨true, 520, [27]⟩, ⟨true, 518, [22, 26, 28, 29, 30, 36]⟩],
  [⟨true, 3, [1]⟩, ⟨true, 524, [27]⟩, ⟨true, 522, [22, 26, 28, 29, 30, 36]⟩],
  [⟨true, 3, [1]⟩, ⟨true, 526, [22]⟩, ⟨true, 528, [23]⟩, ⟨true, 531, [24]⟩, ⟨false, 103, [89, 143]⟩, ⟨false, 153, [90, 91]⟩],
  [⟨true, 3, [1]⟩, ⟨true, 536, [27]⟩, ⟨true, 534, [22, 26, 28, 29, 30, 36]⟩],
  [⟨true, 3, [1]⟩, ⟨true, 540, [27]⟩, ⟨true, 538, [22, 26, 28, 29, 30, 36]⟩],
  [⟨true, 3, [1]⟩, ⟨true, 544, [27]⟩, ⟨true, 542, [22, 26, 28, 29, 30, 36]⟩],
  [⟨true, 3, [1]⟩, ⟨true, 546, [2]⟩, ⟨false, 209, [82]⟩, ⟨true, 406, [4, 5]⟩, ⟨true, 408, [6, 7, 8]⟩],
  [⟨true, 3, [1]⟩, ⟨true, 550, [27]⟩, ⟨true, 548, [22, 26, 28, 29, 30, 36]⟩],
  [⟨true, 3, [1]⟩, ⟨true, 500, [23]⟩, ⟨true, 502, [24]⟩, ⟨true, 552, [22]⟩, ⟨false, 103, [89, 143]⟩, ⟨false, 153, [90, 91]⟩],
  [⟨true, 3, [1]⟩, ⟨true, 554, [12, 22, 31, 32, 33, 34, 35]⟩],
  [⟨true, 3, [1]⟩, ⟨true, 500, [23]⟩, ⟨true, 502, [24]⟩, ⟨true, 556, [22]⟩, ⟨false, 103, [89, 143]⟩, ⟨false, 153, [90, 91]⟩],
  [⟨true, 3, [1]⟩, ⟨true, 560, [27]⟩, ⟨true, 558, [22, 26, 28, 29, 30, 36]⟩],
  [⟨true, 3, [1]⟩, ⟨true, 562, [2]⟩, ⟨false, 119, [82]⟩, ⟨true, 406, [4, 5]⟩, ⟨true, 408, [6, 7, 8]⟩]]

def ts_small_parse_tableChunk7 : List (List TGroup) :=
  [[⟨true, 3, [1]⟩, ⟨false, 43, [82]⟩, ⟨true, 564, [4, 5]⟩, ⟨true, 566, [6, 7, 8]⟩],
  [⟨true, 3, [1]⟩, ⟨false, 149, [82]⟩, ⟨true, 406, [4, 5]⟩, ⟨true, 408, [6, 7, 8]⟩],
  [⟨true, 3, [1]⟩, ⟨false, 30, [82]⟩, ⟨true, 406, [4, 5]⟩, ⟨true, 408, [6, 7, 8]⟩],
  [⟨true, 3, [1]⟩, ⟨false, 64, [82]⟩, ⟨true, 564, [4, 5]⟩, ⟨true, 566, [6, 7, 8]⟩],
  [⟨true, 3, [1]⟩, ⟨false, 70, [82]⟩, ⟨true, 564, [4, 5]⟩, ⟨true, 566, [6, 7, 8]⟩],
  [⟨true, 3, [1]⟩, ⟨true, 568, [18]⟩, ⟨true, 570, [20]⟩, ⟨true, 572, [21]⟩, ⟨false, 91, [88]⟩, ⟨false, 129, [87, 142]⟩],
  [⟨true, 3, [1]⟩, ⟨false, 135, [82]⟩, ⟨true, 406, [4, 5]⟩, ⟨true, 408, [6, 7, 8]⟩],
  [⟨true, 3, [1]⟩, ⟨false, 7, [82]⟩, ⟨true, 406, [4, 5]⟩, ⟨true, 408, [6, 7, 8]⟩],
  [⟨true, 3, [1]⟩, ⟨false, 20, [82]⟩, ⟨true, 564, [4, 5]⟩, ⟨true, 566, [6, 7, 8]⟩],
  [⟨true, 3, [1]⟩, ⟨false, 100, [82]⟩, ⟨true, 564, [4, 5]⟩, ⟨true, 566, [6, 7, 8]⟩],
  [⟨true, 3, [1]⟩, ⟨true, 574, [67]⟩, ⟨true, 576, [74]⟩, ⟨true, 578, [75]⟩, ⟨true, 580, [76]⟩, ⟨true, 582, [77]⟩, ⟨false, 27, [139]⟩],
  [⟨true, 3, [1]⟩, ⟨true, 574, [67]⟩, ⟨true, 576, [74]⟩, ⟨true, 578, [75]⟩, ⟨true, 580, [76]⟩, ⟨true, 582, [77]⟩, ⟨false, 29, [139]⟩],
  [⟨true, 3, [1]⟩, ⟨false, 98, [82]⟩, ⟨true, 564, [4, 5]⟩, ⟨true, 566, [6, 7, 8]⟩],
  [⟨true, 3, [1]⟩, ⟨false, 45, [82]⟩, ⟨true, 564, [4, 5]⟩, ⟨true, 566, [6, 7, 8]⟩],
  [⟨true, 3, [1]⟩, ⟨false, 42, [82]⟩, ⟨true, 564, [4, 5]⟩, ⟨true, 566, [6, 7, 8]⟩],
  [⟨true, 3, [1]⟩, ⟨true, 568, [18]⟩, ⟨true, 570, [20]⟩, ⟨true, 572, [21]⟩, ⟨false, 76, [88]⟩, ⟨false, 134, [87, 142]⟩]]

def ts_small_parse_tableChunk8 : List (List TGroup) :=
  [[⟨true, 3, [1]⟩, ⟨false, 110, [82]⟩, ⟨true, 406, [4, 5]⟩, ⟨true, 408, [6, 7, 8]⟩],
  [⟨true, 3, [1]⟩, ⟨true, 584, [15, 22, 38, 39, 40]⟩],
  [⟨true, 3, [1]⟩, ⟨true, 588, [64]⟩, ⟨true, 590, [66]⟩, ⟨true, 586, [25, 52, 63]⟩],
  [⟨true, 3, [1]⟩, ⟨true, 592, [15, 22, 38, 39, 40]⟩],
  [⟨true, 3, [1]⟩, ⟨true, 594, [18]⟩, ⟨true, 597, [20]⟩, ⟨true, 600, [21]⟩, ⟨false, 134, [87, 142]⟩],
  [⟨true, 3, [1]⟩, ⟨true, 602, [15, 22, 38, 39, 40]⟩],
  [⟨true, 3, [1]⟩, ⟨true, 604, [15, 22, 38, 39, 40]⟩],
  [⟨true, 3, [1]⟩, ⟨true, 606, [15, 22, 38, 39, 40]⟩],
  [⟨true, 3, [1]⟩, ⟨true, 610, [54]⟩, ⟨true, 608, [33, 34, 35, 53]⟩],
  [⟨true, 3, [1]⟩, ⟨true, 614, [54]⟩, ⟨true, 612, [33, 34, 35, 53]⟩],
  [⟨true, 3, [1]⟩, ⟨true, 616, [15]⟩, ⟨true, 618, [22, 38, 39, 40]⟩],
  [⟨true, 3, [1]⟩, ⟨true, 620, [22]⟩, ⟨true, 622, [50]⟩, ⟨false, 143, [123, 150]⟩],
  [⟨true, 3, [1]⟩, ⟨true, 624, [22]⟩, ⟨true, 626, [50]⟩, ⟨false, 142, [123, 150]⟩],
  [⟨true, 3, [1]⟩, ⟨true, 622, [50]⟩, ⟨true, 629, [22]⟩, ⟨false, 142, [123, 150]⟩],
  [⟨true, 3, [1]⟩, ⟨true, 631, [22, 38, 39, 40]⟩],
  [⟨true, 3, [1]⟩, ⟨true, 633, [22, 23, 24]⟩]]

def ts_small_parse_tableChunk9 : List (List TGroup) :=
  [[⟨true, 3, [1]⟩, ⟨false, 41, [83]⟩, ⟨true, 635, [9, 10]⟩],
  [⟨true, 3, [1]⟩, ⟨true, 637, [69, 70, 71]⟩],
  [⟨true, 3, [1]⟩, ⟨false, 79, [83]⟩, ⟨true, 635, [9, 10]⟩],
  [⟨true, 3, [1]⟩, ⟨true, 641, [51]⟩, ⟨true, 639, [22, 50]⟩],
  [⟨true, 3, [1]⟩, ⟨true, 643, [15]⟩, ⟨true, 645, [16]⟩, ⟨false, 165, [141]⟩],
  [⟨true, 3, [1]⟩, ⟨true, 647, [22, 23, 24]⟩],
  [⟨true, 3, [1]⟩, ⟨true, 649, [18, 20, 21]⟩],
  [⟨true, 3, [1]⟩, ⟨true, 651, [22, 23, 24]⟩],
  [⟨true, 3, [1]⟩, ⟨false, 81, [83]⟩, ⟨true, 635, [9, 10]⟩],
  [⟨true, 3, [1]⟩, ⟨true, 643, [15]⟩, ⟨true, 653, [16]⟩, ⟨false, 167, [141]⟩],
  [⟨true, 3, [1]⟩, ⟨true, 643, [15]⟩, ⟨true, 655, [16]⟩, ⟨false, 165, [141]⟩],
  [⟨true, 3, [1]⟩, ⟨true, 643, [15]⟩, ⟨true, 657, [16]⟩, ⟨false, 156, [141]⟩],
  [⟨true, 3, [1]⟩, ⟨true, 643, [15]⟩, ⟨true, 659, [16]⟩, ⟨false, 150, [141]⟩],
  [⟨true, 3, [1]⟩, ⟨false, 97, [83]⟩, ⟨true, 635, [9, 10]⟩],
  [⟨true, 3, [1]⟩, ⟨false, 84, [83]⟩, ⟨true, 635, [9, 10]⟩],
  [⟨true, 3, [1]⟩, ⟨true, 643, [15]⟩, ⟨true, 661, [16]⟩, ⟨false, 162, [141]⟩]]

def ts_small_parse_tableChunk10 : List (List TGroup) :=
  [[⟨true, 3, [1]⟩, ⟨true, 643, [15]⟩, ⟨true, 663, [16]⟩, ⟨false, 165, [141]⟩],
  [⟨true, 3, [1]⟩, ⟨true, 665, [22, 23, 24]⟩],
  [⟨true, 3, [1]⟩, ⟨false, 85, [83]⟩, ⟨true, 635, [9, 10]⟩],
  [⟨true, 3, [1]⟩, ⟨true, 667, [15]⟩, ⟨true, 670, [16]⟩, ⟨false, 165, [141]⟩],
  [⟨true, 3, [1]⟩, ⟨true, 672, [22, 23, 24]⟩],
  [⟨true, 3, [1]⟩, ⟨true, 643, [15]⟩, ⟨true, 674, [16]⟩, ⟨false, 165, [141]⟩],
  [⟨true, 3, [1]⟩, ⟨false, 37, [83]⟩, ⟨true, 635, [9, 10]⟩],
  [⟨true, 3, [1]⟩, ⟨true, 676, [21]⟩, ⟨false, 112, [102]⟩],
  [⟨true, 3, [1]⟩, ⟨true, 670, [15, 16]⟩],
  [⟨true, 3, [1]⟩, ⟨true, 192, [21]⟩, ⟨false, 163, [92]⟩],
  [⟨true, 3, [1]⟩, ⟨true, 678, [46, 47]⟩],
  [⟨true, 3, [1]⟩, ⟨true, 680, [21]⟩, ⟨false, 94, [111]⟩],
  [⟨true, 3, [1]⟩, ⟨true, 682, [21]⟩, ⟨false, 61, [122]⟩],
  [⟨true, 3, [1]⟩, ⟨true, 684, [22, 50]⟩],
  [⟨true, 3, [1]⟩, ⟨true, 686, [21]⟩, ⟨false, 86, [125]⟩],
  [⟨true, 3, [1]⟩, ⟨true, 688, [41, 75]⟩]]

def ts_small_parse_tableChunk11 : List (List TGroup) :=
  [[⟨true, 3, [1]⟩, ⟨true, 690, [56, 57]⟩],
  [⟨true, 3, [1]⟩, ⟨true, 688, [78]⟩, ⟨true, 692, [79]⟩],
  [⟨true, 3, [1]⟩, ⟨true, 694, [21]⟩, ⟨false, 93, [96]⟩],
  [⟨true, 3, [1]⟩, ⟨true, 696, [14]⟩, ⟨false, 83, [85]⟩],
  [⟨true, 3, [1]⟩, ⟨true, 698, [45]⟩],
  [⟨true, 3, [1]⟩, ⟨true, 700, [14]⟩],
  [⟨true, 3, [1]⟩, ⟨true, 702, [23]⟩],
  [⟨true, 3, [1]⟩, ⟨true, 704, [2]⟩],
  [⟨true, 3, [1]⟩, ⟨true, 706, [2]⟩],
  [⟨true, 3, [1]⟩, ⟨true, 708, [14]⟩],
  [⟨true, 3, [1]⟩, ⟨true, 710, [2]⟩],
  [⟨true, 3, [1]⟩, ⟨true, 712, [80]⟩],
  [⟨true, 3, [1]⟩, ⟨true, 714, [19]⟩],
  [⟨true, 3, [1]⟩, ⟨true, 716, [2]⟩],
  [⟨true, 3, [1]⟩, ⟨true, 718, [2]⟩],
  [⟨true, 3, [1]⟩, ⟨true, 720, [2]⟩]]

def ts_small_parse_tableChunk12 : List (List TGroup) :=
  [[⟨true, 3, [1]⟩, ⟨true, 722, [2]⟩],
  [⟨true, 3, [1]⟩, ⟨true, 724, [13]⟩],
  [⟨true, 3, [1]⟩, ⟨true, 726, [2]⟩],
  [⟨true, 3, [1]⟩, ⟨true, 728, [2]⟩],
  [⟨true, 3, [1]⟩, ⟨true, 688, [25]⟩],
  [⟨true, 3, [1]⟩, ⟨true, 688, [75]⟩],
  [⟨true, 3, [1]⟩, ⟨true, 688, [78]⟩],
  [⟨true, 3, [1]⟩, ⟨true, 730, [21]⟩],
  [⟨true, 3, [1]⟩, ⟨true, 732, [20]⟩],
  [⟨true, 3, [1]⟩, ⟨true, 734, [14]⟩],
  [⟨true, 3, [1]⟩, ⟨true, 736, [2]⟩],
  [⟨true, 3, [1]⟩, ⟨true, 738, [20]⟩],
  [⟨true, 3, [1]⟩, ⟨true, 740, [3]⟩],
  [⟨true, 3, [1]⟩, ⟨true, 742, [2]⟩],
  [⟨true, 3, [1]⟩, ⟨true, 744, [2]⟩],
  [⟨true, 3, [1]⟩, ⟨true, 746, [37]⟩]]

def ts_small_parse_tableChunk13 : List (List TGroup) :=
  [[⟨true, 3, [1]⟩, ⟨true, 748, [2]⟩],
  [⟨true, 3, [1]⟩, ⟨true, 750, [65]⟩],
  [⟨true, 3, [1]⟩, ⟨true, 752, [12]⟩],
  [⟨true, 3, [1]⟩, ⟨true, 754, [2]⟩],
  [⟨true, 3, [1]⟩, ⟨true, 756, [21]⟩],
  [⟨true, 3, [1]⟩, ⟨true, 758, [2]⟩],
  [⟨true, 3, [1]⟩, ⟨true, 760, [58]⟩],
  [⟨true, 3, [1]⟩, ⟨true, 762, [0]⟩],
  [⟨true, 3, [1]⟩, ⟨true, 764, [2]⟩],
  [⟨true, 3, [1]⟩, ⟨true, 766, [2]⟩],
  [⟨true, 3, [1]⟩, ⟨true, 768, [2]⟩],
  [⟨true, 3, [1]⟩, ⟨true, 770, [2]⟩],
  [⟨true, 3, [1]⟩, ⟨true, 772, [2]⟩]]

/-- ts_small_parse_table (resolved through ts_small_parse_table_map):
entry i describes parse state i + 2. -/
def ts_small_parse_table : List (List TGroup) :=
  ts_small_parse_tableChunk0 ++ ts_small_parse_tableChunk1 ++ ts_small_parse_tableChunk2 ++ ts_small_parse_tableChunk3 ++ ts_small_parse_tableChunk4 ++ ts_small_parse_tableChunk5 ++ ts_small_parse_tableChunk6 ++ ts_small_parse_tableChunk7 ++ ts_small_parse_tableChunk8 ++ ts_small_parse_tableChunk9 ++ ts_small_parse_tableChunk10 ++ ts_small_parse_tableChunk11 ++ ts_small_parse_tableChunk12 ++ ts_small_parse_tableChunk13

/-- A parse action, as in ts_parse_actions. -/
inductive PAct where
  | shift : Nat → PAct
  | shiftRepeat : Nat → PAct
  | shiftExtra : PAct
  | reduce : Nat → Nat → PAct
  | recover : PAct
  | acceptInput : PAct
deriving DecidableEq, Repr

def ts_parse_actionsChunk0 : List (Nat × List PAct) :=
  [(0, []),
  (1, [.recover]),
  (3, [.shiftExtra]),
  (5, [.reduce 81 0]),
  (7, [.shift 212]),
  (9, [.shift 113]),
  (11, [.shift 222]),
  (13, [.shift 221]),
  (15, [.shift 220]),
  (17, [.shift 219]),
  (19, [.shift 218]),
  (21, [.reduce 82 1]),
  (23, [.reduce 82 1]),
  (25, [.shift 89]),
  (27, [.shift 127]),
  (29, [.shift 114])]

def ts_parse_actionsChunk1 : List (Nat × List PAct) :=
  [(31, [.shift 114]),
  (33, [.shift 128]),
  (35, [.shift 168]),
  (37, [.shift 186]),
  (39, [.shift 182]),
  (41, [.shift 146]),
  (43, [.shift 132]),
  (45, [.reduce 149 2]),
  (47, [.reduce 149 2, .shiftRepeat 127]),
  (50, [.reduce 149 2, .shiftRepeat 114]),
  (53, [.reduce 149 2, .shiftRepeat 114]),
  (56, [.reduce 149 2, .shiftRepeat 128]),
  (59, [.reduce 149 2, .shiftRepeat 168]),
  (62, [.reduce 149 2, .shiftRepeat 186]),
  (65, [.reduce 149 2, .shiftRepeat 182]),
  (68, [.reduce 149 2, .shiftRepeat 146])]

def ts_parse_actionsChunk2 : List (Nat × List PAct) :=
  [(71, [.reduce 149 2, .shiftRepeat 132]),
  (74, [.shift 80]),
  (76, [.reduce 133 4]),
  (78, [.shift 116]),
  (80, [.shift 147]),
  (82, [.shift 202]),
  (84, [.shift 205]),
  (86, [.reduce 133 3]),
  (88, [.reduce 153 2]),
  (90, [.reduce 153 2, .shiftRepeat 116]),
  (93, [.reduce 153 2, .shiftRepeat 147]),
  (96, [.reduce 153 2, .shiftRepeat 202]),
  (99, [.reduce 153 2, .shiftRepeat 205]),
  (102, [.shift 69]),
  (104, [.shift 118]),
  (106, [.shift 117])]

def ts_parse_actionsChunk3 : List (Nat × List PAct) :=
  [(108, [.shift 117]),
  (110, [.shift 138]),
  (112, [.shift 178]),
  (114, [.shift 139]),
  (116, [.reduce 81 1]),
  (118, [.reduce 151 2]),
  (120, [.reduce 151 2, .shiftRepeat 118]),
  (123, [.reduce 151 2, .shiftRepeat 117]),
  (126, [.reduce 151 2, .shiftRepeat 117]),
  (129, [.reduce 151 2, .shiftRepeat 138]),
  (132, [.reduce 151 2, .shiftRepeat 178]),
  (135, [.reduce 151 2, .shiftRepeat 139]),
  (138, [.reduce 151 2, .shiftRepeat 132]),
  (141, [.shift 75]),
  (143, [.reduce 140 2]),
  (145, [.reduce 140 2, .shiftRepeat 212])]

def ts_parse_actionsChunk4 : List (Nat × List PAct) :=
  [(148, [.reduce 140 2, .shiftRepeat 113]),
  (151, [.reduce 140 2, .shiftRepeat 222]),
  (154, [.reduce 140 2, .shiftRepeat 221]),
  (157, [.reduce 140 2, .shiftRepeat 220]),
  (160, [.reduce 140 2, .shiftRepeat 219]),
  (163, [.reduce 140 2, .shiftRepeat 218]),
  (166, [.reduce 83 1]),
  (168, [.reduce 83 1]),
  (170, [.shift 95]),
  (172, [.shift 123]),
  (174, [.shift 126]),
  (176, [.shift 126]),
  (178, [.shift 159]),
  (180, [.shift 184]),
  (182, [.shift 107]),
  (184, [.shift 73])]

def ts_parse_actionsChunk5 : List (Nat × List PAct) :=
  [(186, [.shift 24]),
  (188, [.shift 35]),
  (190, [.shift 35]),
  (192, [.shift 96]),
  (194, [.reduce 91 2]),
  (196, [.reduce 91 2]),
  (198, [.reduce 146 2]),
  (200, [.reduce 146 2, .shiftRepeat 123]),
  (203, [.reduce 146 2, .shiftRepeat 126]),
  (206, [.reduce 146 2, .shiftRepeat 126]),
  (209, [.reduce 146 2, .shiftRepeat 159]),
  (212, [.reduce 146 2, .shiftRepeat 184]),
  (215, [.reduce 146 2, .shiftRepeat 107]),
  (218, [.reduce 132 3]),
  (220, [.reduce 132 3]),
  (222, [.shift 23])]

def ts_parse_actionsChunk6 : List (Nat × List PAct) :=
  [(224, [.shift 36]),
  (226, [.shift 36]),
  (228, [.shift 23]),
  (230, [.reduce 145 2, .shiftRepeat 22]),
  (233, [.reduce 145 2, .shiftRepeat 36]),
  (236, [.reduce 145 2, .shiftRepeat 36]),
  (239, [.reduce 145 2, .shiftRepeat 22]),
  (242, [.reduce 145 2]),
  (244, [.shift 22]),
  (246, [.shift 22]),
  (248, [.reduce 94 1]),
  (250, [.reduce 144 2, .shiftRepeat 24]),
  (253, [.reduce 144 2, .shiftRepeat 35]),
  (256, [.reduce 144 2, .shiftRepeat 35]),
  (259, [.reduce 144 2]),
  (261, [.reduce 144 2])]

def ts_parse_actionsChunk7 : List (Nat × List PAct) :=
  [(263, [.shift 34]),
  (265, [.shift 46]),
  (267, [.shift 46]),
  (269, [.reduce 93 1]),
  (271, [.reduce 93 1]),
  (273, [.reduce 137 3]),
  (275, [.reduce 139 3]),
  (277, [.reduce 138 3]),
  (279, [.reduce 135 2]),
  (281, [.reduce 136 2]),
  (283, [.reduce 139 4]),
  (285, [.reduce 134 1]),
  (287, [.reduce 144 2, .shiftRepeat 34]),
  (290, [.reduce 144 2, .shiftRepeat 46]),
  (293, [.reduce 144 2, .shiftRepeat 46]),
  (296, [.reduce 115 2])]

def ts_parse_actionsChunk8 : List (Nat × List PAct) :=
  [(298, [.reduce 115 2]),
  (300, [.reduce 119 3]),
  (302, [.reduce 119 3]),
  (304, [.reduce 130 7]),
  (306, [.reduce 130 7]),
  (308, [.shift 204]),
  (310, [.shift 160]),
  (312, [.reduce 118 2]),
  (314, [.reduce 118 2]),
  (316, [.reduce 120 2]),
  (318, [.reduce 120 2]),
  (320, [.reduce 116 2]),
  (322, [.reduce 116 2]),
  (324, [.reduce 114 2]),
  (326, [.reduce 114 2]),
  (328, [.shift 26])]

def ts_parse_actionsChunk9 : List (Nat × List PAct) :=
  [(330, [.reduce 113 2]),
  (332, [.reduce 113 2]),
  (334, [.reduce 130 6]),
  (336, [.reduce 130 6]),
  (338, [.shift 197]),
  (340, [.shift 164]),
  (342, [.reduce 117 1]),
  (344, [.reduce 117 1]),
  (346, [.reduce 112 1]),
  (348, [.reduce 112 1]),
  (350, [.shift 104]),
  (352, [.shift 187]),
  (354, [.shift 183]),
  (356, [.shift 120]),
  (358, [.shift 130]),
  (360, [.shift 106])]

def ts_parse_actionsChunk10 : List (Nat × List PAct) :=
  [(362, [.reduce 130 9]),
  (364, [.reduce 130 9]),
  (366, [.shift 148]),
  (368, [.reduce 130 8]),
  (370, [.reduce 130 8]),
  (372, [.shift 154]),
  (374, [.reduce 148 2]),
  (376, [.reduce 148 2, .shiftRepeat 187]),
  (379, [.reduce 148 2, .shiftRepeat 183]),
  (382, [.reduce 148 2, .shiftRepeat 120]),
  (385, [.shift 101]),
  (387, [.reduce 147 2, .shiftRepeat 130]),
  (390, [.reduce 147 2]),
  (392, [.shift 108]),
  (394, [.shift 18]),
  (396, [.shift 50])]

def ts_parse_actionsChunk11 : List (Nat × List PAct) :=
  [(398, [.reduce 104 4]),
  (400, [.reduce 104 4]),
  (402, [.reduce 88 2]),
  (404, [.reduce 121 3]),
  (406, [.shift 2]),
  (408, [.shift 2]),
  (410, [.shift 82]),
  (412, [.reduce 128 2]),
  (414, [.reduce 128 2]),
  (416, [.reduce 152 2, .shiftRepeat 2]),
  (419, [.reduce 152 2, .shiftRepeat 2]),
  (422, [.reduce 152 2]),
  (424, [.shift 90]),
  (426, [.reduce 122 2]),
  (428, [.reduce 131 4]),
  (430, [.reduce 131 4])]

def ts_parse_actionsChunk12 : List (Nat × List PAct) :=
  [(432, [.reduce 125 2]),
  (434, [.reduce 127 2]),
  (436, [.reduce 127 2]),
  (438, [.reduce 122 3]),
  (440, [.reduce 85 3]),
  (442, [.reduce 96 2]),
  (444, [.reduce 126 1]),
  (446, [.reduce 126 1]),
  (448, [.reduce 125 3]),
  (450, [.reduce 86 4]),
  (452, [.shift 68]),
  (454, [.reduce 129 3]),
  (456, [.reduce 129 3]),
  (458, [.reduce 130 11]),
  (460, [.reduce 130 11]),
  (462, [.reduce 111 3])]

def ts_parse_actionsChunk13 : List (Nat × List PAct) :=
  [(464, [.reduce 130 10]),
  (466, [.reduce 130 10]),
  (468, [.reduce 131 5]),
  (470, [.reduce 131 5]),
  (472, [.reduce 84 5]),
  (474, [.reduce 124 3]),
  (476, [.reduce 85 4]),
  (478, [.reduce 88 3]),
  (480, [.reduce 111 2]),
  (482, [.reduce 131 6]),
  (484, [.reduce 131 6]),
  (486, [.reduce 86 3]),
  (488, [.reduce 129 2]),
  (490, [.reduce 129 2]),
  (492, [.reduce 95 3]),
  (494, [.reduce 110 3])]

def ts_parse_actionsChunk14 : List (Nat × List PAct) :=
  [(496, [.reduce 96 3]),
  (498, [.shift 151]),
  (500, [.shift 21]),
  (502, [.shift 58]),
  (504, [.reduce 100 2]),
  (506, [.reduce 100 2]),
  (508, [.reduce 99 2]),
  (510, [.reduce 99 2]),
  (512, [.shift 60]),
  (514, [.reduce 98 2]),
  (516, [.reduce 98 2]),
  (518, [.reduce 105 3]),
  (520, [.reduce 105 3]),
  (522, [.reduce 104 5]),
  (524, [.reduce 104 5]),
  (526, [.reduce 143 2])]

def ts_parse_actionsChunk15 : List (Nat × List PAct) :=
  [(528, [.reduce 143 2, .shiftRepeat 21]),
  (531, [.reduce 143 2, .shiftRepeat 58]),
  (534, [.reduce 105 2]),
  (536, [.reduce 105 2]),
  (538, [.reduce 97 1]),
  (540, [.reduce 97 1]),
  (542, [.reduce 102 2]),
  (544, [.reduce 102 2]),
  (546, [.shift 209]),
  (548, [.reduce 102 3]),
  (550, [.reduce 102 3]),
  (552, [.shift 88]),
  (554, [.reduce 103 2]),
  (556, [.shift 166]),
  (558, [.reduce 101 4]),
  (560, [.reduce 101 4])]

def ts_parse_actionsChunk16 : List (Nat × List PAct) :=
  [(562, [.shift 119]),
  (564, [.shift 11]),
  (566, [.shift 11]),
  (568, [.shift 190]),
  (570, [.shift 44]),
  (572, [.shift 99]),
  (574, [.shift 200]),
  (576, [.shift 177]),
  (578, [.shift 179]),
  (580, [.shift 199]),
  (582, [.shift 198]),
  (584, [.reduce 108 4]),
  (586, [.shift 210]),
  (588, [.shift 211]),
  (590, [.shift 122]),
  (592, [.reduce 107 4])]

def ts_parse_actionsChunk17 : List (Nat × List PAct) :=
  [(594, [.reduce 142 2, .shiftRepeat 190]),
  (597, [.reduce 142 2, .shiftRepeat 44]),
  (600, [.reduce 142 2]),
  (602, [.reduce 109 2]),
  (604, [.reduce 107 5]),
  (606, [.reduce 108 5]),
  (608, [.shift 92]),
  (610, [.shift 188]),
  (612, [.shift 214]),
  (614, [.shift 213]),
  (616, [.shift 144]),
  (618, [.reduce 106 1]),
  (620, [.shift 67]),
  (622, [.shift 115]),
  (624, [.reduce 150 2]),
  (626, [.reduce 150 2, .shiftRepeat 115])]

def ts_parse_actionsChunk18 : List (Nat × List PAct) :=
  [(629, [.shift 71]),
  (631, [.reduce 106 2]),
  (633, [.reduce 91 3]),
  (635, [.shift 15]),
  (637, [.shift 31]),
  (639, [.reduce 123 2]),
  (641, [.shift 206]),
  (643, [.shift 196]),
  (645, [.shift 87]),
  (647, [.reduce 92 2]),
  (649, [.reduce 87 2]),
  (651, [.reduce 89 1]),
  (653, [.shift 133]),
  (655, [.shift 137]),
  (657, [.shift 131]),
  (659, [.shift 72])]

def ts_parse_actionsChunk19 : List (Nat × List PAct) :=
  [(661, [.shift 47]),
  (663, [.shift 39]),
  (665, [.reduce 90 3]),
  (667, [.reduce 141 2, .shiftRepeat 196]),
  (670, [.reduce 141 2]),
  (672, [.reduce 92 3]),
  (674, [.shift 136]),
  (676, [.shift 51]),
  (678, [.shift 38]),
  (680, [.shift 3]),
  (682, [.shift 141]),
  (684, [.reduce 123 4]),
  (686, [.shift 9]),
  (688, [.shift 193]),
  (690, [.shift 216]),
  (692, [.shift 189])]

def ts_parse_actionsChunk20 : List (Nat × List PAct) :=
  [(694, [.shift 17]),
  (696, [.shift 207]),
  (698, [.shift 172]),
  (700, [.shift 192]),
  (702, [.shift 25]),
  (704, [.shift 32]),
  (706, [.shift 40]),
  (708, [.shift 191]),
  (710, [.shift 78]),
  (712, [.shift 185]),
  (714, [.shift 152]),
  (716, [.shift 155]),
  (718, [.shift 157]),
  (720, [.shift 28]),
  (722, [.shift 161]),
  (724, [.shift 181])]

def ts_parse_actionsChunk21 : List (Nat × List PAct) :=
  [(726, [.shift 170]),
  (728, [.shift 53]),
  (730, [.shift 62]),
  (732, [.shift 124]),
  (734, [.shift 194]),
  (736, [.shift 52]),
  (738, [.shift 125]),
  (740, [.shift 175]),
  (742, [.shift 158]),
  (744, [.shift 59]),
  (746, [.shift 208]),
  (748, [.shift 20]),
  (750, [.shift 20]),
  (752, [.shift 215]),
  (754, [.shift 201]),
  (756, [.shift 77])]

def ts_parse_actionsChunk22 : List (Nat × List PAct) :=
  [(758, [.shift 195]),
  (760, [.shift 203]),
  (762, [.acceptInput]),
  (764, [.shift 121]),
  (766, [.shift 176]),
  (768, [.shift 174]),
  (770, [.shift 173]),
  (772, [.shift 180])]

/-- ts_parse_actions: association list from entry index to its actions. -/
def ts_parse_actions : List (Nat × List PAct) :=
  ts_parse_actionsChunk0 ++ ts_parse_actionsChunk1 ++ ts_parse_actionsChunk2 ++ ts_parse_actionsChunk3 ++ ts_parse_actionsChunk4 ++ ts_parse_actionsChunk5 ++ ts_parse_actionsChunk6 ++ ts_parse_actionsChunk7 ++ ts_parse_actionsChunk8 ++ ts_parse_actionsChunk9 ++ ts_parse_actionsChunk10 ++ ts_parse_actionsChunk11 ++ ts_parse_actionsChunk12 ++ ts_parse_actionsChunk13 ++ ts_parse_actionsChunk14 ++ ts_parse_actionsChunk15 ++ ts_parse_actionsChunk16 ++ ts_parse_actionsChunk17 ++ ts_parse_actionsChunk18 ++ ts_parse_actionsChunk19 ++ ts_parse_actionsChunk20 ++ ts_parse_actionsChunk21 ++ ts_parse_actionsChunk22

end Amble

namespace Amble

/-!
## Number lexing (C6)

The only DFA state accepting sym_number is 329; it is entered from state 0
on a digit, from state 27 (state 0 after a minus sign) on a digit, and
from itself on a digit. The development below proves the shape of every
number token any lexer run can produce.
-/
set_option maxRecDepth 8192

/-!
## Grammar symbols

Numeric values of the symbol enum at the top of parser.c, for the symbols
the development refers to.
-/
def sym_comment : Nat := 1

def sym_identifier : Nat := 2

def sym_number : Nat := 3

def string_token1 : Nat := 4

def string_token2 : Nat := 5

def string_token3 : Nat := 6

def anon_sym_let : Nat := 11

def anon_sym_set : Nat := 12

def anon_sym_EQ : Nat := 13

def anon_sym_LPAREN : Nat := 14

def anon_sym_COMMA : Nat := 15

def anon_sym_RPAREN : Nat := 16

def anon_sym_trigger : Nat := 17

def anon_sym_only : Nat := 18

def anon_sym_once : Nat := 19

def anon_sym_when : Nat := 20

def anon_sym_LBRACE : Nat := 21

def anon_sym_RBRACE : Nat := 22

def anon_sym_room : Nat := 25

def anon_sym_item : Nat := 41

def anon_sym_spinner : Nat := 49

def anon_sym_wedge : Nat := 50

def anon_sym_width : Nat := 51

def anon_sym_npc : Nat := 52

def anon_sym_goal : Nat := 67

def sym_program : Nat := 81

def sym_string : Nat := 82

def sym_set_decl : Nat := 84

def sym_set_list : Nat := 85

def sym_trigger : Nat := 86

def sym_trigger_mod : Nat := 87

def sym_trigger_block : Nat := 88

def sym_cond_line : Nat := 93

def sym_spinner_def : Nat := 121

def sym_spinner_block : Nat := 122

def sym_wedge_stmt : Nat := 123

def sym_npc_def : Nat := 124

def sym_npc_block : Nat := 125

def aux_trigger_repeat1 : Nat := 142

def aux_do_stmt_repeat1 : Nat := 144

/-!
## Lexer driver

The ts_lex function of parser.c, split into the DFA data (ts_lex_table
above) and the driver loop that the START_LEXER / ADVANCE / SKIP /
ACCEPT_TOKEN macros implement: ADVANCE consumes the lookahead and moves to
the next DFA state, SKIP additionally moves the token start past the
consumed character, ACCEPT_TOKEN records the token symbol with its end at
the current position, and the function returns the last recorded token.
At end of input the lookahead reads as 0 with the eof flag set.
-/
def lexTable (st : Nat) : LexCase := ts_lex_table.getD st ⟨none, []⟩

def evalGuard (eofb : Bool) (c : Nat) : Guard → Bool
  | .geof => eofb
  | .geq k => c == k
  | .gne k => c != k
  | .gne0 => c != 0
  | .grange a b => a ≤ c && c ≤ b

def evalCond (eofb : Bool) (c : Nat) : Cond → Bool
  | .cor gs => gs.any (evalGuard eofb c)
  | .cand gs => gs.all (evalGuard eofb c)

def lexStep (st : Nat) (eofb : Bool) (c : Nat) : Option LexAct :=
  (lexTable st).rules.findSome? fun r => if evalCond eofb c r.1 then some r.2 else none

/-- A token: symbol, start and end byte offsets. -/
structure Tok where
  sym : Nat
  tstart : Nat
  tend : Nat
deriving DecidableEq

def lexLoop : Nat → Nat → Nat → Nat → Option Tok → List Nat → Option Tok
  | 0, _, _, _, best, _ => best
  | fuel + 1, st, pos, tokStart, best, input =>
    let best1 : Option Tok :=
      match (lexTable st).accept with
      | some sy => some ⟨sy, tokStart, pos⟩
      | none => best
    let eofb : Bool := decide (input.length ≤ pos)
    let c : Nat := input.getD pos 0
    match lexStep st eofb c with
    | some (.advance s1) => lexLoop fuel s1 (pos + 1) tokStart best1 input
    | some (.skip s1) => lexLoop fuel s1 (pos + 1) (pos + 1) best1 input
    | none => best1

/-- Run ts_lex in DFA entry state `mode` from byte offset `pos`. -/
def ts_lex (mode : Nat) (input : List Nat) (pos : Nat) : Option Tok :=
  lexLoop (input.length + 2) mode pos pos none input

/-!
## Parse table lookups

ts_parse_table holds the two large rows (states 0 and 1);
ts_small_parse_table with ts_small_parse_table_map holds the rest.
An ACTIONS value indexes ts_parse_actions; a STATE value is a goto.
-/
def lexModeOf (st : Nat) : Nat := ts_lex_modes.getD st 0

def smallRow (st : Nat) : List TGroup := ts_small_parse_table.getD (st - 2) []

def tableActs (st sym : Nat) : Option Nat :=
  if st = 0 then List.lookup sym ts_parse_table_acts0
  else if st = 1 then List.lookup sym ts_parse_table_acts1
  else (smallRow st).findSome? fun g =>
    if g.isAct && g.syms.contains sym then some g.val else none

def tableGoto (st sym : Nat) : Option Nat :=
  if st = 0 then List.lookup sym ts_parse_table_goto0
  else if st = 1 then List.lookup sym ts_parse_table_goto1
  else (smallRow st).findSome? fun g =>
    if !g.isAct && g.syms.contains sym then some g.val else none

def actsOf (i : Nat) : List PAct := (List.lookup i ts_parse_actions).getD []

/-!
## LR engine

The shift / reduce / accept loop of the table-driven parser: shift pushes
the lookahead token, SHIFT_EXTRA pushes it as an extra without changing
the parse state, reduce pops the production's children (extras popped
along the way do not count toward the child count, exactly as the stack
pop of the runtime counts only non-extra subtrees), consults the goto
entry and pushes the new node, and ACCEPT_INPUT returns the root.
Tokens are lexed with the lex mode of the current parse state
(ts_lex_modes); after a reduce the same lookahead token is dispatched
again in the new state.
-/
/-- A syntax tree node: a token leaf (with its extra flag) or an interior
node with its children in source order. -/
inductive PNode where
  | leaf (sym tstart tend : Nat) (extra : Bool)
  | node (sym : Nat) (children : List PNode)

def PNode.isExtra : PNode → Bool
  | .leaf _ _ _ e => e
  | .node _ _ => false

/-- Pop stack entries until n non-extra subtrees have been collected;
extras encountered on the way are collected as well. -/
def popChildren : List (Nat × PNode) → Nat → List PNode → List (Nat × PNode) × List PNode
  | stack, 0, acc => (stack, acc)
  | [], _ + 1, acc => ([], acc)
  | e :: rest, n + 1, acc =>
    if e.2.isExtra then popChildren rest (n + 1) (e.2 :: acc)
    else popChildren rest n (e.2 :: acc)

/-- The parse state on top of the stack; the empty stack is the start
state 1. -/
def topState (stack : List (Nat × PNode)) : Nat :=
  match stack with
  | [] => 1
  | e :: _ => e.1

/-- On ACCEPT_INPUT the runtime folds everything still on the stack into
the program root, inlining the program node's own children among any
extras around it. -/
def acceptRoot (stack : List (Nat × PNode)) : PNode :=
  .node sym_program ((stack.map (fun e => e.2)).reverse.flatMap fun n =>
    match n with
    | .node s cs => if s = sym_program then cs else [n]
    | _ => [n])

inductive StepRes where
  | more (stack : List (Nat × PNode))
  | shifted (stack : List (Nat × PNode)) (pos : Nat)
  | accepted (root : PNode)
  | halted

def applyActs : List PAct → List (Nat × PNode) → Tok → StepRes
  | [], stack, _ => .more stack
  | a :: rest, stack, t =>
    match a with
    | .shift s => .shifted ((s, .leaf t.sym t.tstart t.tend false) :: stack) t.tend
    | .shiftRepeat s => .shifted ((s, .leaf t.sym t.tstart t.tend false) :: stack) t.tend
    | .shiftExtra => .shifted ((topState stack, .leaf t.sym t.tstart t.tend true) :: stack) t.tend
    | .reduce sy n =>
      let p := popChildren stack n []
      match tableGoto (topState p.1) sy with
      | some s1 => applyActs rest ((s1, .node sy p.2) :: p.1) t
      | none => .halted
    | .recover => .halted
    | .acceptInput => .accepted (acceptRoot stack)

/-- Parse outcome: a completed root, or the point where lexing or the
action table gave out (the runtime's error recovery takes over there;
it is not part of the generated tables). -/
inductive POut where
  | ok (root : PNode)
  | errLex (pos : Nat)
  | errTok (sym pos st : Nat)
  | fuelOut

def engine : Nat → List (Nat × PNode) → Nat → Option Tok → List Nat → POut
  | 0, _, _, _, _ => .fuelOut
  | fuel + 1, stack, pos, none, input =>
    match ts_lex (lexModeOf (topState stack)) input pos with
    | none => .errLex pos
    | some t => engine fuel stack pos (some t) input
  | fuel + 1, stack, pos, some t, input =>
    match tableActs (topState stack) t.sym with
    | none => .errTok t.sym t.tstart (topState stack)
    | some i =>
      match applyActs (actsOf i) stack t with
      | .more stack1 => engine fuel stack1 pos (some t) input
      | .shifted stack1 pos1 => engine fuel stack1 pos1 none input
      | .accepted root => .ok root
      | .halted => .errTok t.sym t.tstart (topState stack)

/-- Parse an input with the table-driven engine. -/
def parseAmble (input : List Nat) : POut :=
  engine (20 * input.length + 100) [] 0 none input

def inNpcRoom : List Nat := [110, 112, 99, 32, 114, 111, 111, 109, 32, 123, 32, 125]

def inLetOk : List Nat := [108, 101, 116, 32, 115, 101, 116, 32, 120, 32, 61, 32, 40, 97, 44, 32, 50, 41]

def inLetNoSet : List Nat := [108, 101, 116, 32, 120, 32, 61, 32, 40, 97, 41]

def inLetEmpty : List Nat := [108, 101, 116, 32, 115, 101, 116, 32, 120, 32, 61, 32, 40, 41]

def inLetTrail : List Nat := [108, 101, 116, 32, 115, 101, 116, 32, 120, 32, 61, 32, 40, 97, 44, 41]

def inTrigFull : List Nat := [116, 114, 105, 103, 103, 101, 114, 32, 34, 116, 34, 32, 111, 110, 108, 121, 32, 111, 110, 99, 101, 32, 119, 104, 101, 110, 32, 104, 97, 115, 32, 102, 108, 97, 103, 32, 102, 32, 123, 32, 125]

def inTrigBare : List Nat := [116, 114, 105, 103, 103, 101, 114, 32, 34, 116, 34, 32, 123, 32, 125]

def inTrigClaim : List Nat := [116, 114, 105, 103, 103, 101, 114, 32, 111, 110, 108, 121, 32, 111, 110, 99, 101, 32, 119, 104, 101, 110, 32, 120, 32, 123, 32, 125]

def inTrigOnly : List Nat := [116, 114, 105, 103, 103, 101, 114, 32, 34, 116, 34, 32, 111, 110, 108, 121, 32, 123, 32, 125]

def inSpinOk : List Nat := [115, 112, 105, 110, 110, 101, 114, 32, 115, 32, 123, 32, 119, 101, 100, 103, 101, 32, 34, 97, 34, 32, 119, 105, 100, 116, 104, 32, 51, 32, 119, 101, 100, 103, 101, 32, 34, 98, 34, 32, 125]

def inSpinWidth : List Nat := [115, 112, 105, 110, 110, 101, 114, 32, 115, 32, 123, 32, 119, 105, 100, 116, 104, 32, 51, 32, 125]

def inComment : List Nat := [35, 32, 99, 10]

/-!
## Claim inputs and claim theorems
-/
def reservedWords : List (List Nat) := [[116, 114, 117, 101], [102, 97, 108, 115, 101], [108, 101, 116], [115, 101, 116], [116, 114, 105, 103, 103, 101, 114], [111, 110, 108, 121], [111, 110, 99, 101], [119, 104, 101, 110], [105, 102], [100, 111], [114, 111, 111, 109], [110, 97, 109, 101], [100, 101, 115, 99], [100, 101, 115, 99, 114, 105, 112, 116, 105, 111, 110], [118, 105, 115, 105, 116, 101, 100], [111, 118, 101, 114, 108, 97, 121], [117, 110, 115, 101, 116], [116, 101, 120, 116], [110, 111, 114, 109, 97, 108], [104, 97, 112, 112, 121], [98, 111, 114, 101, 100], [101, 120, 105, 116], [114, 101, 113, 117, 105, 114, 101, 100, 95, 102, 108, 97, 103, 115], [114, 101, 113, 117, 105, 114, 101, 100, 95, 105, 116, 101, 109, 115], [98, 97, 114, 114, 101, 100], [105, 116, 101, 109], [112, 111, 114, 116, 97, 98, 108, 101], [97, 98, 105, 108, 105, 116, 121], [99, 111, 110, 116, 97, 105, 110, 101, 114], [115, 116, 97, 116, 101], [111, 112, 101, 110], [99, 108, 111, 115, 101, 100], [114, 101, 115, 116, 114, 105, 99, 116, 101, 100], [115, 112, 105, 110, 110, 101, 114], [119, 101, 100, 103, 101], [119, 105, 100, 116, 104], [110, 112, 99], [109, 97, 100], [99, 117, 115, 116, 111, 109], [109, 111, 118, 101, 109, 101, 110, 116], [114, 97, 110, 100, 111, 109], [114, 111, 117, 116, 101], [114, 111, 111, 109, 115], [116, 105, 109, 105, 110, 103], [97, 99, 116, 105, 118, 101], [100, 105, 97, 108, 111, 103, 117, 101], [108, 111, 99, 97, 116, 105, 111, 110], [99, 104, 101, 115, 116], [105, 110, 118, 101, 110, 116, 111, 114, 121], [112, 108, 97, 121, 101, 114], [110, 111, 119, 104, 101, 114, 101], [103, 111, 97, 108], [103, 114, 111, 117, 112], [114, 101, 113, 117, 105, 114, 101, 100], [111, 112, 116, 105, 111, 110, 97, 108], [115, 116, 97, 116, 117, 115, 45, 101, 102, 102, 101, 99, 116], [100, 111, 110, 101], [115, 116, 97, 114, 116], [104, 97, 115], [102, 108, 97, 103], [109, 105, 115, 115, 105, 110, 103], [114, 101, 97, 99, 104, 101, 100], [99, 111, 109, 112, 108, 101, 116, 101], [105, 110], [112, 114, 111, 103, 114, 101, 115, 115]]

/-- The seven top-level construct keywords of the grammar. -/
def topKeywords : List Nat :=
  [anon_sym_let, anon_sym_trigger, anon_sym_room, anon_sym_item,
   anon_sym_spinner, anon_sym_npc, anon_sym_goal]

def isDigit (c : Nat) : Bool := 48 ≤ c && c ≤ 57

/-- Every character of input at offsets i up to j is an ASCII digit. -/
def allDigits (input : List Nat) (i j : Nat) : Prop :=
  ∀ k, i ≤ k → k < j → isDigit (input.getD k 0) = true

/-- The text of a span is a digit run, possibly led by a minus sign. -/
def shapePart (input : List Nat) (i j : Nat) : Prop :=
  allDigits input i j ∨ (input.getD i 0 = 45 ∧ allDigits input (i + 1) j)

/-- The shape of a number token: non-empty, a digit run possibly led by a
minus sign, and maximal (the next character is not a digit). -/
def numShape (input : List Nat) (r : Tok) : Prop :=
  r.tstart < r.tend ∧ shapePart input r.tstart r.tend ∧
    isDigit (input.getD r.tend 0) = false

def bestNotNum (best : Option Tok) : Prop :=
  ∀ b, best = some b → b.sym ≠ 3

/-- Run invariant for the number-shape lemma, indexed by the DFA state. -/
def numInv (input : List Nat) (st pos tokStart : Nat) (best : Option Tok) : Prop :=
  if st = 329 then
    tokStart < pos ∧ shapePart input tokStart pos ∧
      isDigit (input.getD (pos - 1) 0) = true
  else if st = 27 then
    pos = tokStart + 1 ∧ input.getD tokStart 0 = 45 ∧ bestNotNum best
  else if st = 0 then
    tokStart = pos ∧ bestNotNum best
  else bestNotNum best

/-- Rule check for state 0: a transition may reach 27 only on a minus
sign, may reach 329 only on a digit, never reaches state 0 by an advance,
and its whitespace skip stays in state 0. -/
def zeroRuleOk (r : Cond × LexAct) : Bool :=
  match r.2 with
  | .advance t => (t == 27 && r.1 == .cor [.geq 45]) ||
      ((t == 329 && r.1 == .cor [.grange 48 57]) ||
       (t != 0 && t != 27 && t != 329))
  | .skip t => t == 0

/-- Rule check for state 27 (after a minus sign at state 0): it advances
to 329 only on a digit and otherwise only to harmless states. -/
def rule27Ok (r : Cond × LexAct) : Bool :=
  match r.2 with
  | .advance t => (t == 329 && r.1 == .cor [.grange 48 57]) ||
      (t != 0 && t != 27 && t != 329)
  | .skip _ => false

/-- Case check for every state other than 0, 27 and 329: it does not
accept sym_number, and none of its transitions reaches state 0, 27
or 329. -/
def numSafeCase (cs : LexCase) : Bool :=
  cs.accept != some 3 &&
  cs.rules.all fun r =>
    match r.2 with
    | .advance t => t != 0 && t != 27 && t != 329
    | .skip t => t != 0 && t != 27 && t != 329

/-!
## Unterminated single-line strings (C7)

For the two single-line string forms (double- and single-quoted, DFA
states 4/5/311 and 18/19/312) the DFA has no accepting state reachable
without the closing quote, and every in-string state stops on a newline
or at end of input. The predicate unterm characterises string bodies in
which a newline or end of input comes before an unescaped closing quote.
-/
/-- The string body (the text after the opening quote) runs into a
newline, a NUL byte or end of input before an unescaped closing quote q.
A backslash escapes the following character. -/
def unterm (q : Nat) : List Nat → Bool
  | [] => true
  | c :: rest =>
    if c = 10 || c = 0 then true
    else if c = q then false
    else if c = 92 then
      match rest with
      | [] => true
      | c2 :: r2 => if c2 = 10 || c2 = 0 then true else unterm q r2
    else unterm q rest

/-!
## Spec-modelled parse driver (C9, and the recovery half of C7)

Modelled from the spec: the parse driver with its error recovery is the
host runtime, which is not under src/ (the repository holds only the
generated tables). Sections 4.2, 4.3, 5 and 7 of the spec describe it:
tokens are drawn one at a time; an unterminated string yields a
diagnostic and a string token bounded at the error point; at top level
the driver dispatches on the construct keywords, skips any other token as
a syntax error, and resynchronises; end of input closes open blocks with
a missing-brace diagnostic each; the recovery loop is bounded by the
input length. The definitions below follow those words, reusing the
embedded ts_lex scanner for regular tokens.
-/
structure Diag where
  dpos : Nat
  dkind : Nat
deriving DecidableEq

structure ParseResult where
  root : PNode
  diagnostics : List Diag

def PNode.rootSym : PNode → Nat
  | .leaf sy _ _ _ => sy
  | .node sy _ => sy

/-- Modelled from the spec (§4.1 Failure): the error point of an
unterminated single-line string: the offset of the newline or end of
input that cut the literal short (scanning the body after the opening
quote, honouring backslash escapes). -/
def specBound (q : Nat) : List Nat → Nat → Nat
  | [], pos => pos
  | c :: rest, pos =>
    if c = 10 then pos
    else if c = q then pos + 1
    else if c = 92 then
      match rest with
      | [] => pos + 1
      | _ :: r2 => specBound q r2 (pos + 2)
    else specBound q rest (pos + 1)

/-- Modelled from the spec (§4.1, §7a): the token stream; a position where
the scanner finds no token yields a diagnostic, and when it is an
unterminated string literal also a string token bounded at the error
point, so the parser can continue. -/
def specLex : Nat → List Nat → Nat → List Tok × List Diag
  | 0, _, _ => ([], [])
  | fuel + 1, input, pos =>
    if input.length ≤ pos then ([], [])
    else
      match ts_lex 0 input pos with
      | some t =>
        if t.sym = 0 then ([], [])
        else
          let r := specLex fuel input (max t.tend (pos + 1))
          (t :: r.1, r.2)
      | none =>
        let c := input.getD pos 0
        if c = 34 ∨ c = 39 then
          let e := specBound c (input.drop (pos + 1)) (pos + 1)
          let r := specLex fuel input (max e (pos + 1))
          (⟨if c = 34 then 4 else 5, pos, e⟩ :: r.1, ⟨pos, 0⟩ :: r.2)
        else
          let r := specLex fuel input (pos + 1)
          (r.1, ⟨pos, 0⟩ :: r.2)

def specTokens (input : List Nat) : List Tok × List Diag :=
  specLex (input.length + 1) input 0

/-- Modelled from the spec (§4.2): the construct node kind for each
top-level keyword token. -/
def keywordSym : Nat → Option Nat
  | 11 => some 84
  | 17 => some 86
  | 25 => some 95
  | 41 => some 110
  | 49 => some 121
  | 52 => some 124
  | 67 => some 133
  | _ => none

/-- Modelled from the spec (§4.2, §4.3): a construct consumes tokens
greedily through the matching close of its brace block; it stops before
the next top-level keyword seen outside braces, and end of input closes
each still-open block with a missing-brace diagnostic. -/
def specConstruct : List Tok → Nat → List PNode × List Tok × List Diag
  | [], depth => ([], [], List.replicate depth ⟨0, 1⟩)
  | t :: rest, depth =>
    if t.sym = 21 then
      let r := specConstruct rest (depth + 1)
      (PNode.leaf t.sym t.tstart t.tend false :: r.1, r.2.1, r.2.2)
    else if t.sym = 22 then
      if depth = 1 then ([PNode.leaf t.sym t.tstart t.tend false], rest, [])
      else if depth = 0 then ([], t :: rest, [])
      else
        let r := specConstruct rest (depth - 1)
        (PNode.leaf t.sym t.tstart t.tend false :: r.1, r.2.1, r.2.2)
    else if depth = 0 && (keywordSym t.sym).isSome then
      ([], t :: rest, [])
    else
      let r := specConstruct rest depth
      (PNode.leaf t.sym t.tstart t.tend false :: r.1, r.2.1, r.2.2)

/-- Modelled from the spec (§4.2 Program, §4.3): repeat top-level
constructs until end of input, dispatching on the keyword; a comment is
trivia kept on the program; any other token is a syntax error consumed as
a skipped token with a diagnostic, and parsing resumes at the next
recognized top-level keyword. -/
def specProgram : Nat → List Tok → List PNode × List Diag
  | 0, _ => ([], [])
  | _, [] => ([], [])
  | fuel + 1, t :: rest =>
    match keywordSym t.sym with
    | some csym =>
      let r := specConstruct rest 0
      let p := specProgram fuel r.2.1
      (PNode.node csym (PNode.leaf t.sym t.tstart t.tend false :: r.1) :: p.1,
       r.2.2 ++ p.2)
    | none =>
      if t.sym = 1 then
        let p := specProgram fuel rest
        (PNode.leaf t.sym t.tstart t.tend true :: p.1, p.2)
      else
        let p := specProgram fuel rest
        (p.1, ⟨t.tstart, 2⟩ :: p.2)

/-- Modelled from the spec (§4.2 parse contract, §6, §7): parse always
returns a ParseResult whose root is a Program node; failures surface only
in the diagnostics list. -/
def specParse (input : List Nat) : ParseResult :=
  let tk := specTokens input
  let pr := specProgram (tk.1.length + 1) tk.1
  ⟨PNode.node sym_program pr.1, tk.2 ++ pr.2⟩

/-!
## Triple-double-quoted block strings (C5)

After the three opening quotes the DFA sits in state 10 (body of the
block string): 10 → 11 → 8 count consecutive quotes and 8 accepts
aux_sym_string_token3 at the third; 309 / 12 / 9 mirror them after a
backslash escape, accepting at 335. The lemma below shows every token3
the scanner can produce ends with three consecutive quote characters, so
the literal never terminates at one or two quotes.
-/
def qAt (input : List Nat) (k : Nat) : Prop := input.getD k 0 = 34

/-- The three characters before offset e are all double quotes. -/
def threeQuotesAt (input : List Nat) (e : Nat) : Prop :=
  3 ≤ e ∧ qAt input (e - 1) ∧ qAt input (e - 2) ∧ qAt input (e - 3)

/-- State invariant inside a block string: how many quotes in a row the
DFA has just consumed. -/
def blockInv (input : List Nat) (st pos : Nat) : Prop :=
  if st = 11 ∨ st = 12 then 1 ≤ pos ∧ qAt input (pos - 1)
  else if st = 8 ∨ st = 9 then 2 ≤ pos ∧ qAt input (pos - 1) ∧ qAt input (pos - 2)
  else if st = 334 ∨ st = 335 then threeQuotesAt input pos
  else True

def bestP (input : List Nat) (best : Option Tok) : Prop :=
  ∀ b, best = some b → b.sym = 6 → threeQuotesAt input b.tend

/-- The section 8 example literal: three quotes, newline, Hello space
hash space not space shown, newline, World, newline, three quotes. -/
def inTripleLit : List Nat :=
  [34, 34, 34, 10, 72, 101, 108, 108, 111, 32, 35, 32, 110, 111, 116, 32,
   115, 104, 111, 119, 110, 10, 87, 111, 114, 108, 100, 10, 34, 34, 34]

/-- C1: in the initial parse state 1 and in the program-repetition state 10,
the only terminals with a parse action are end-of-input, the comment extra
and the seven construct keywords let / trigger / room / item / spinner /
npc / goal, each of which shifts into its construct's state; every other
terminal has no table action there, so it is a syntax error left to
recovery. End-of-input reduces sym_program (from zero constructs in state
1, from the collected repetition in state 10), so the program is the
repetition of these constructs until end-of-input. -/
theorem claim1_top_level_dispatch :
    (∀ sym, sym < 81 →
      ((tableActs 1 sym).isSome ↔ sym ∈ 0 :: sym_comment :: topKeywords)) ∧
    (∀ sym, sym < 81 →
      ((tableActs 10 sym).isSome ↔ sym ∈ 0 :: sym_comment :: topKeywords)) ∧
    actsOf ((tableActs 1 anon_sym_let).getD 0) = [.shift 212] ∧
    actsOf ((tableActs 1 anon_sym_trigger).getD 0) = [.shift 113] ∧
    actsOf ((tableActs 1 anon_sym_room).getD 0) = [.shift 222] ∧
    actsOf ((tableActs 1 anon_sym_item).getD 0) = [.shift 221] ∧
    actsOf ((tableActs 1 anon_sym_spinner).getD 0) = [.shift 220] ∧
    actsOf ((tableActs 1 anon_sym_npc).getD 0) = [.shift 219] ∧
    actsOf ((tableActs 1 anon_sym_goal).getD 0) = [.shift 218] ∧
    actsOf ((tableActs 1 sym_comment).getD 0) = [.shiftExtra] ∧
    actsOf ((tableActs 1 0).getD 0) = [.reduce sym_program 0] ∧
    actsOf ((tableActs 10 0).getD 0) = [.reduce sym_program 1] := by
  refine ⟨by decide, by decide, ?_, ?_, ?_, ?_, ?_, ?_, ?_, ?_, ?_, ?_⟩ <;> rfl

/-- Witness for C1 at the concrete terminal anon_sym_let. -/
theorem claim1_witness :
    (tableActs 1 anon_sym_let).isSome ↔ anon_sym_let ∈ 0 :: sym_comment :: topKeywords :=
  claim1_top_level_dispatch.1 anon_sym_let (by decide)

/-- C2 counterexample: the state reached right after the let keyword is 212,
and there the identifier token has no parse action at all: the only
terminal with an action besides the comment extra is the keyword set.
Hence the input let x = (a) is not accepted (the engine stops at offset 3,
where the lex mode of state 212 cannot even produce a token for x), and
the empty list input let set x = () is not accepted either: the state 207
reached after the opening parenthesis has no action for the closing
parenthesis. This refutes the claimed shape let Identifier = ( SetList )
with a possibly empty SetList. -/
theorem claim2_counterexample :
    actsOf ((tableActs 1 anon_sym_let).getD 0) = [.shift 212] ∧
    tableActs 212 sym_identifier = none ∧
    parseAmble inLetNoSet = .errLex 3 ∧
    actsOf ((tableActs 181 anon_sym_LPAREN).getD 0) = [.shift 207] ∧
    tableActs 207 anon_sym_RPAREN = none ∧
    parseAmble inLetEmpty = .errLex 13 := by
  refine ⟨rfl, by decide, rfl, rfl, by decide, rfl⟩

/-- C2 amended: a set declaration is let set Identifier = ( SetList ) where
SetList is a non-empty comma-separated sequence of identifier tokens (in
the set-list lex mode numbers and boolean words also lex as identifiers;
quoted string tokens are not accepted) and no trailing comma is allowed:
the concrete input let set x = (a, 2) parses into a sym_set_decl with
exactly that shape; after let only the set keyword has an action (state
212); after the opening parenthesis (state 207) and after a comma (state
196) only an identifier token has an action, so the list cannot be empty
and cannot end in a comma, as the run on let set x = (a,) shows. -/
theorem claim2_amended_set_decl_shape :
    parseAmble inLetOk = .ok (.node 81 [.node 84 [.leaf 11 0 3 false,
      .leaf 12 4 7 false, .leaf 2 8 9 false, .leaf 13 10 11 false,
      .node 85 [.leaf 14 12 13 false, .leaf 2 13 14 false,
        .node 141 [.leaf 15 14 15 false, .leaf 2 16 17 false],
        .leaf 16 17 18 false]]]) ∧
    (∀ sym, sym < 81 →
      ((tableActs 212 sym).isSome ↔ sym ∈ [sym_comment, anon_sym_set])) ∧
    (∀ sym, sym < 81 →
      ((tableActs 207 sym).isSome ↔ sym ∈ [sym_comment, sym_identifier])) ∧
    actsOf ((tableActs 158 anon_sym_COMMA).getD 0) = [.shift 196] ∧
    (∀ sym, sym < 81 →
      ((tableActs 196 sym).isSome ↔ sym ∈ [sym_comment, sym_identifier])) ∧
    parseAmble inLetTrail = .errLex 15 := by
  refine ⟨rfl, by decide, by decide, rfl, by decide, rfl⟩

/-- Witness for C2 amended at the concrete terminal anon_sym_set. -/
theorem claim2_witness :
    (tableActs 212 anon_sym_set).isSome ↔ anon_sym_set ∈ [sym_comment, anon_sym_set] :=
  claim2_amended_set_decl_shape.2.1 anon_sym_set (by decide)

/-- C3 counterexample: the claimed shape (trigger, optional only, optional
once, with no name between trigger and the modifiers, then a mandatory
when) is not what the tables accept. The input trigger only once when x
braces, written exactly as the claimed shape with no name, is rejected:
after trigger the word only lexes as an identifier and becomes the
trigger's name, and the following once (token 19 at offset 13) has no
action in state 119. Conversely trigger "t" then a bare block parses
fine without any when clause, refuting the mandatory when. -/
theorem claim3_counterexample :
    parseAmble inTrigClaim = .errTok anon_sym_once 13 119 ∧
    parseAmble inTrigBare = .ok (.node 81 [.node 86 [.leaf 17 0 7 false,
      .node 82 [.leaf 4 8 11 false],
      .node 88 [.leaf 21 12 13 false, .leaf 22 14 15 false]]]) := by
  exact ⟨rfl, rfl⟩

/-- C3 amended: a trigger is the trigger keyword, then a mandatory name
(an identifier or one of the five string token forms: state 113 accepts
exactly those terminals), then a possibly empty sequence of
sym_trigger_mod modifiers, where a modifier is either the pair only once
(after only, state 190 accepts nothing but once) or when followed by a
condition line, and finally the braced trigger block (state 119 accepts
exactly only, when and the opening brace). The input
trigger "t" only once when has flag f { } parses into exactly this shape,
and trigger "t" only { } is rejected because only is not followed by
once. -/
theorem claim3_amended_trigger_shape :
    actsOf ((tableActs 1 anon_sym_trigger).getD 0) = [.shift 113] ∧
    (∀ sym, sym < 81 → ((tableActs 113 sym).isSome ↔
      sym ∈ [sym_comment, sym_identifier, 4, 5, 6, 7, 8])) ∧
    (∀ sym, sym < 81 → ((tableActs 119 sym).isSome ↔
      sym ∈ [sym_comment, anon_sym_only, anon_sym_when, anon_sym_LBRACE])) ∧
    (∀ sym, sym < 81 → ((tableActs 190 sym).isSome ↔
      sym ∈ [sym_comment, anon_sym_once])) ∧
    parseAmble inTrigFull = .ok (.node 81 [.node 86 [.leaf 17 0 7 false,
      .node 82 [.leaf 4 8 11 false],
      .node 142 [.node 87 [.leaf 18 12 16 false, .leaf 19 17 21 false],
        .node 87 [.leaf 20 22 26 false, .node 93 [.node 144 [.node 144
          [.leaf 2 27 30 false, .leaf 2 31 35 false], .leaf 2 36 37 false]]]],
      .node 88 [.leaf 21 38 39 false, .leaf 22 40 41 false]]]) ∧
    parseAmble inTrigOnly = .errTok anon_sym_LBRACE 17 190 := by
  refine ⟨rfl, by decide, by decide, by decide, rfl, rfl⟩

/-- Witness for C3 amended at the concrete terminal anon_sym_only. -/
theorem claim3_witness :
    (tableActs 119 anon_sym_only).isSome ↔
      anon_sym_only ∈ [sym_comment, anon_sym_only, anon_sym_when, anon_sym_LBRACE] :=
  claim3_amended_trigger_shape.2.2.1 anon_sym_only (by decide)

/-- C4: parsing npc room with an empty block yields a sym_npc_def whose
name token is the identifier room (byte span 4 to 8), not a nested room
definition; the npc keyword shifts into state 219, whose lex mode is DFA
state 17, and in that mode every reserved word spelling of the grammar
lexes as a plain sym_identifier covering its whole spelling. -/
theorem claim4_keyword_scoping :
    parseAmble inNpcRoom = .ok (.node 81 [.node 124 [.leaf 52 0 3 false,
      .leaf 2 4 8 false,
      .node 125 [.leaf 21 9 10 false, .leaf 22 11 12 false]]]) ∧
    actsOf ((tableActs 1 anon_sym_npc).getD 0) = [.shift 219] ∧
    lexModeOf 219 = 17 ∧
    (∀ w ∈ reservedWords, ts_lex 17 w 0 = some ⟨sym_identifier, 0, w.length⟩) := by
  refine ⟨rfl, rfl, rfl, by decide⟩

/-- Witness for C4 at the concrete reserved word room. -/
theorem claim4_witness :
    ts_lex 17 [114, 111, 111, 109] 0 = some ⟨sym_identifier, 0, 4⟩ :=
  claim4_keyword_scoping.2.2.2 [114, 111, 111, 109] (by decide)

/-- C8 counterexample: width is not a spinner-level statement keyword.
The spinner keyword shifts to state 220 and the opening brace of the
spinner block shifts to state 141; in state 141 the width token has no
action (the only statement-initial terminals are wedge and the closing
brace), so spinner s { width 3 } is rejected at the width token. -/
theorem claim8_counterexample :
    actsOf ((tableActs 1 anon_sym_spinner).getD 0) = [.shift 220] ∧
    actsOf ((tableActs 174 anon_sym_LBRACE).getD 0) = [.shift 141] ∧
    tableActs 141 anon_sym_width = none ∧
    parseAmble inSpinWidth = .errTok anon_sym_width 12 141 := by
  refine ⟨rfl, rfl, by decide, rfl⟩

/-- C8 amended: a spinner definition is spinner Identifier followed by a
braced block of repeated wedge statements only: in the block state 141
the statement-initial terminals are exactly wedge and the closing brace,
while width is legal only inside a wedge statement after its string value
(state 149, where wedge, width and the closing brace may follow). The
input spinner s { wedge "a" width 3 wedge "b" } parses with width 3
attached inside the first sym_wedge_stmt. -/
theorem claim8_amended_spinner_shape :
    (∀ sym, sym < 81 → ((tableActs 141 sym).isSome ↔
      sym ∈ [sym_comment, anon_sym_RBRACE, anon_sym_wedge])) ∧
    (∀ sym, sym < 81 → ((tableActs 149 sym).isSome ↔
      sym ∈ [sym_comment, anon_sym_RBRACE, anon_sym_wedge, anon_sym_width])) ∧
    parseAmble inSpinOk = .ok (.node 81 [.node 121 [.leaf 49 0 7 false,
      .leaf 2 8 9 false,
      .node 122 [.leaf 21 10 11 false,
        .node 150 [.node 123 [.leaf 50 12 17 false, .node 82 [.leaf 4 18 21 false],
          .leaf 51 22 27 false, .leaf 3 28 29 false],
        .node 123 [.leaf 50 30 35 false, .node 82 [.leaf 4 36 39 false]]],
        .leaf 22 40 41 false]]]) := by
  refine ⟨by decide, by decide, rfl⟩

/-- Witness for C8 amended at the concrete terminal anon_sym_wedge. -/
theorem claim8_witness :
    (tableActs 141 anon_sym_wedge).isSome ↔
      anon_sym_wedge ∈ [sym_comment, anon_sym_RBRACE, anon_sym_wedge] :=
  claim8_amended_spinner_shape.1 anon_sym_wedge (by decide)

/-- C10: the empty input parses successfully to a sym_program node with no
children: in the initial state 1 the end-of-input terminal maps to
ts_parse_actions entry 5, which is REDUCE(sym_program, 0), the grammar's
empty production for the start symbol; an input consisting only of a
comment also succeeds, with the comment attached as an extra leaf. -/
theorem claim10_empty_input :
    parseAmble [] = .ok (.node sym_program []) ∧
    tableActs 1 0 = some 5 ∧
    actsOf 5 = [.reduce sym_program 0] ∧
    parseAmble inComment = .ok (.node sym_program [.leaf sym_comment 0 3 true]) := by
  exact ⟨rfl, rfl, rfl, rfl⟩

theorem allDigits_extend {input i j} (h : allDigits input i j)
    (hd : isDigit (input.getD j 0) = true) : allDigits input i (j + 1) := by
  intro k hik hk
  rcases Nat.lt_succ_iff_lt_or_eq.mp hk with hk' | rfl
  · exact h k hik hk'
  · exact hd

theorem allDigits_single {input i} (hd : isDigit (input.getD i 0) = true) :
    allDigits input i (i + 1) := by
  intro k hik hk
  have : k = i := Nat.le_antisymm (Nat.lt_succ_iff.mp hk) hik
  subst this; exact hd

theorem shapePart_extend {input i j} (h : shapePart input i j)
    (hd : isDigit (input.getD j 0) = true) : shapePart input i (j + 1) := by
  rcases h with h | ⟨h45, h⟩
  · exact Or.inl (allDigits_extend h hd)
  · exact Or.inr ⟨h45, allDigits_extend h hd⟩

theorem findSome?_some {α β : Type} {f : α → Option β} {b : β} :
    ∀ {l : List α}, l.findSome? f = some b → ∃ a ∈ l, f a = some b := by
  intro l
  induction l with
  | nil => intro h; cases h
  | cons x xs ih =>
    intro h
    simp only [List.findSome?] at h
    cases hx : f x with
    | some v =>
      rw [hx] at h
      exact ⟨x, List.mem_cons_self x xs, by rw [hx]; exact h⟩
    | none =>
      rw [hx] at h
      obtain ⟨a, ha, hfa⟩ := ih h
      exact ⟨a, List.mem_cons_of_mem x ha, hfa⟩

/-- A successful lexStep picks a rule of the state's list whose condition
holds. -/
theorem lexStep_mem {st : Nat} {eofb : Bool} {c : Nat} {act : LexAct}
    (h : lexStep st eofb c = some act) :
    ∃ r ∈ (lexTable st).rules, evalCond eofb c r.1 = true ∧ r.2 = act := by
  unfold lexStep at h
  obtain ⟨r, hr, hf⟩ := findSome?_some h
  by_cases hc : evalCond eofb c r.1 = true
  · refine ⟨r, hr, hc, ?_⟩
    rw [if_pos hc] at hf
    exact Option.some.inj hf
  · rw [if_neg hc] at hf
    cases hf

theorem evalCond_geq {eofb : Bool} {c k : Nat}
    (h : evalCond eofb c (.cor [.geq k]) = true) : c = k := by
  simpa [evalCond, evalGuard] using h

theorem evalCond_digit {eofb : Bool} {c : Nat}
    (h : evalCond eofb c (.cor [.grange 48 57]) = true) : isDigit c = true := by
  simpa [evalCond, evalGuard, isDigit] using h

theorem zeroRules_ok : (lexTable 0).rules.all zeroRuleOk = true := by decide

theorem rules27_ok : (lexTable 27).rules.all rule27Ok = true := by decide

theorem lexTable27_accept : (lexTable 27).accept = none := by decide

theorem lexTable329 :
    lexTable 329 = ⟨some 3, [(.cor [.grange 48 57], .advance 329)]⟩ := by decide

theorem lexTable0_accept : (lexTable 0).accept = none := by decide

theorem ts_lex_table_length : ts_lex_table.length = 418 := by decide

theorem numSafe_all (st : Nat) (h0 : st ≠ 0) (h27 : st ≠ 27) (h329 : st ≠ 329) :
    numSafeCase (lexTable st) = true := by
  by_cases h : st < 418
  · exact (by decide :
      ∀ s, s < 418 → s ≠ 0 → s ≠ 27 → s ≠ 329 → numSafeCase (lexTable s) = true)
      st h h0 h27 h329
  · unfold lexTable
    rw [List.getD_eq_default]
    · rfl
    · rw [ts_lex_table_length]; omega

theorem lexLoop_succ (fuel st pos ts : Nat) (best : Option Tok) (input : List Nat) :
    lexLoop (fuel + 1) st pos ts best input =
      (let best1 : Option Tok :=
        match (lexTable st).accept with
        | some sy => some ⟨sy, ts, pos⟩
        | none => best
      match lexStep st (decide (input.length ≤ pos)) (input.getD pos 0) with
      | some (.advance s1) => lexLoop fuel s1 (pos + 1) ts best1 input
      | some (.skip s1) => lexLoop fuel s1 (pos + 1) (pos + 1) best1 input
      | none => best1) := rfl

theorem lexStep329 (eofb : Bool) (c : Nat) :
    lexStep 329 eofb c = if isDigit c then some (.advance 329) else none := by
  have hc : evalCond eofb c (.cor [.grange 48 57]) = isDigit c := by
    simp [evalCond, evalGuard, isDigit]
  unfold lexStep
  rw [lexTable329]
  simp only [List.findSome?, hc]
  cases hdig : isDigit c <;> simp [hdig]

theorem numSafe_accept {st : Nat} (h : numSafeCase (lexTable st) = true) :
    (lexTable st).accept ≠ some 3 := by
  unfold numSafeCase at h
  have := (Bool.and_eq_true _ _).mp h |>.1
  simpa using this

theorem numSafe_rule {st : Nat} {r : Cond × LexAct}
    (h : numSafeCase (lexTable st) = true) (hr : r ∈ (lexTable st).rules) :
    (∀ t, r.2 = .advance t → t ≠ 0 ∧ t ≠ 27 ∧ t ≠ 329) ∧
    (∀ t, r.2 = .skip t → t ≠ 0 ∧ t ≠ 27 ∧ t ≠ 329) := by
  unfold numSafeCase at h
  have hall := (Bool.and_eq_true _ _).mp h |>.2
  rw [List.all_eq_true] at hall
  have hrr := hall r hr
  constructor
  · intro t ht
    simp only [ht] at hrr
    simpa [and_assoc] using hrr
  · intro t ht
    simp only [ht] at hrr
    simpa [and_assoc] using hrr

/-- Number-shape lemma: any run of the lexer DFA that yields a sym_number
token yields one whose text is a maximal digit run optionally led by a
minus sign (and the minus sign can be taken only when the run starts in
DFA state 0). -/
theorem lexLoop_num (input : List Nat) :
    ∀ fuel st pos ts best,
      numInv input st pos ts best →
      input.length + 1 ≤ fuel + pos →
      ∀ r, lexLoop fuel st pos ts best input = some r → r.sym = 3 →
        numShape input r := by
  intro fuel
  induction fuel with
  | zero =>
    intro st pos ts best hInv hF r hr h3
    simp only [lexLoop] at hr
    by_cases h329 : st = 329
    · subst h329
      unfold numInv at hInv
      rw [if_pos rfl] at hInv
      obtain ⟨-, -, hd⟩ := hInv
      rw [List.getD_eq_default] at hd
      · simp [isDigit] at hd
      · omega
    · by_cases h27 : st = 27
      · subst h27
        unfold numInv at hInv
        rw [if_neg h329, if_pos rfl] at hInv
        obtain ⟨hpos, h45, -⟩ := hInv
        rw [List.getD_eq_default] at h45
        · simp at h45
        · omega
      · by_cases h0 : st = 0
        · subst h0
          unfold numInv at hInv
          rw [if_neg h329, if_neg h27, if_pos rfl] at hInv
          exact absurd h3 (hInv.2 r hr)
        · unfold numInv at hInv
          rw [if_neg h329, if_neg h27, if_neg h0] at hInv
          exact absurd h3 (hInv r hr)
  | succ fuel ih =>
    intro st pos ts best hInv hF r hr h3
    rw [lexLoop_succ] at hr
    by_cases h329 : st = 329
    · subst h329
      unfold numInv at hInv
      rw [if_pos rfl] at hInv
      obtain ⟨hlt, hsp, hd1⟩ := hInv
      rw [lexStep329] at hr
      simp only [lexTable329] at hr
      by_cases hdig : isDigit (input.getD pos 0) = true
      · rw [if_pos hdig] at hr
        refine ih 329 (pos + 1) ts _ ?_ (by omega) r hr h3
        unfold numInv
        rw [if_pos rfl]
        exact ⟨by omega, shapePart_extend hsp hdig, by simpa using hdig⟩
      · rw [if_neg hdig] at hr
        have hreq : r = ⟨3, ts, pos⟩ := by
          cases hr
          rfl
        subst hreq
        exact ⟨hlt, hsp, by simpa using hdig⟩
    · by_cases h27 : st = 27
      · subst h27
        unfold numInv at hInv
        rw [if_neg h329, if_pos rfl] at hInv
        obtain ⟨hpos, h45, hbn⟩ := hInv
        simp only [lexTable27_accept] at hr
        cases hstep : lexStep 27 (decide (input.length ≤ pos)) (input.getD pos 0) with
        | none =>
          simp only [hstep] at hr
          exact absurd h3 (hbn r hr)
        | some act =>
          obtain ⟨rl, hmem, hcond, hact⟩ := lexStep_mem hstep
          have hok := List.all_eq_true.mp rules27_ok rl hmem
          simp only [rule27Ok, hact] at hok
          cases act with
          | skip s1 => simp at hok
          | advance s1 =>
            simp only [hstep] at hr
            have hok' : (s1 = 329 ∧ rl.1 = .cor [.grange 48 57]) ∨
                (s1 ≠ 0 ∧ s1 ≠ 27 ∧ s1 ≠ 329) := by
              simpa [and_assoc] using hok
            rcases hok' with ⟨rfl, hguard⟩ | ⟨hs0, hs27, hs329⟩
            · rw [hguard] at hcond
              have hdig := evalCond_digit hcond
              refine ih 329 (pos + 1) ts _ ?_ (by omega) r hr h3
              unfold numInv
              rw [if_pos rfl]
              refine ⟨by omega, Or.inr ⟨h45, ?_⟩, by simpa using hdig⟩
              subst hpos
              exact allDigits_single hdig
            · refine ih s1 (pos + 1) ts _ ?_ (by omega) r hr h3
              unfold numInv
              rw [if_neg hs329, if_neg hs27, if_neg hs0]
              exact hbn
      · by_cases h0 : st = 0
        · subst h0
          unfold numInv at hInv
          rw [if_neg h329, if_neg h27, if_pos rfl] at hInv
          obtain ⟨hts, hbn⟩ := hInv
          simp only [lexTable0_accept] at hr
          cases hstep : lexStep 0 (decide (input.length ≤ pos)) (input.getD pos 0) with
          | none =>
            simp only [hstep] at hr
            exact absurd h3 (hbn r hr)
          | some act =>
            obtain ⟨rl, hmem, hcond, hact⟩ := lexStep_mem hstep
            have hok := List.all_eq_true.mp zeroRules_ok rl hmem
            simp only [zeroRuleOk, hact] at hok
            cases act with
            | skip s1 =>
              simp only [hstep] at hr
              have hs1 : s1 = 0 := by simpa using hok
              subst hs1
              refine ih 0 (pos + 1) (pos + 1) _ ?_ (by omega) r hr h3
              unfold numInv
              rw [if_neg (by omega : (0:Nat) ≠ 329), if_neg (by omega : (0:Nat) ≠ 27),
                if_pos rfl]
              exact ⟨rfl, hbn⟩
            | advance s1 =>
              simp only [hstep] at hr
              have hok' : (s1 = 27 ∧ rl.1 = .cor [.geq 45]) ∨
                  ((s1 = 329 ∧ rl.1 = .cor [.grange 48 57]) ∨
                   (s1 ≠ 0 ∧ s1 ≠ 27 ∧ s1 ≠ 329)) := by
                simpa [and_assoc] using hok
              rcases hok' with ⟨rfl, hguard⟩ | ⟨rfl, hguard⟩ | ⟨hs0, hs27, hs329⟩
              · rw [hguard] at hcond
                have h45 := evalCond_geq hcond
                refine ih 27 (pos + 1) ts _ ?_ (by omega) r hr h3
                unfold numInv
                rw [if_neg (by omega : (27:Nat) ≠ 329), if_pos rfl]
                subst hts
                exact ⟨rfl, h45, hbn⟩
              · rw [hguard] at hcond
                have hdig := evalCond_digit hcond
                refine ih 329 (pos + 1) ts _ ?_ (by omega) r hr h3
                unfold numInv
                rw [if_pos rfl]
                subst hts
                exact ⟨by omega, Or.inl (allDigits_single hdig), by simpa using hdig⟩
              · refine ih s1 (pos + 1) ts _ ?_ (by omega) r hr h3
                unfold numInv
                rw [if_neg hs329, if_neg hs27, if_neg hs0]
                exact hbn
        · unfold numInv at hInv
          rw [if_neg h329, if_neg h27, if_neg h0] at hInv
          have hsafe := numSafe_all st h0 h27 h329
          have hbn1 : bestNotNum (match (lexTable st).accept with
              | some sy => some (⟨sy, ts, pos⟩ : Tok)
              | none => best) := by
            cases hacc : (lexTable st).accept with
            | none => exact hInv
            | some sy =>
              intro b hb h3'
              rw [Option.some.injEq] at hb
              apply numSafe_accept hsafe
              rw [hacc, ← hb] at *
              simp_all
          cases hstep : lexStep st (decide (input.length ≤ pos)) (input.getD pos 0) with
          | none =>
            simp only [hstep] at hr
            exact absurd h3 (hbn1 r hr)
          | some act =>
            obtain ⟨rl, hmem, hcond, hact⟩ := lexStep_mem hstep
            have hok := numSafe_rule hsafe hmem
            cases act with
            | advance s1 =>
              simp only [hstep] at hr
              obtain ⟨hs0, hs27, hs329⟩ := hok.1 s1 hact
              refine ih s1 (pos + 1) ts _ ?_ (by omega) r hr h3
              unfold numInv
              rw [if_neg hs329, if_neg hs27, if_neg hs0]
              exact hbn1
            | skip s1 =>
              simp only [hstep] at hr
              obtain ⟨hs0, hs27, hs329⟩ := hok.2 s1 hact
              refine ih s1 (pos + 1) (pos + 1) _ ?_ (by omega) r hr h3
              unfold numInv
              rw [if_neg hs329, if_neg hs27, if_neg hs0]
              exact hbn1

/-- C6 counterexample: lex state 0 is a lex mode in actual use (for
example parse state 212, reached right after the let keyword, uses it),
and in that mode the input consisting of a minus sign followed by the
digit 5 lexes as a single sym_number token whose span starts at the minus
sign: the minus sign is part of the number token, refuting the claim that
in every lex mode a number token carries no sign and never contains a
minus. -/
theorem claim6_counterexample :
    ts_lex 0 [45, 53] 0 = some ⟨sym_number, 0, 2⟩ ∧
    List.getD [45, 53] 0 0 = 45 ∧
    lexModeOf 212 = 0 := by
  exact ⟨rfl, rfl, rfl⟩

/-- C6 amended: in every lex mode of the scanner, a sym_number token is a
non-empty maximal run of ASCII digits with no decimal point and no
exponent, except that the token may begin with a minus sign immediately
followed by the digits (which happens only through lex state 0, the one
mode whose DFA can reach the number-accepting state). -/
theorem claim6_amended_number_shape :
    ∀ mode, mode ∈ [0, 1, 2, 3, 13, 17, 313] →
    ∀ input pos r, ts_lex mode input pos = some r → r.sym = sym_number →
      numShape input r := by
  intro mode hmode input pos r hlex h3
  unfold ts_lex at hlex
  refine lexLoop_num input (input.length + 2) mode pos pos none ?_ (by omega) r hlex h3
  have hnone : bestNotNum none := fun b hb => by cases hb
  simp only [List.mem_cons, List.not_mem_nil, or_false] at hmode
  rcases hmode with rfl | rfl | rfl | rfl | rfl | rfl | rfl
  · unfold numInv
    rw [if_neg (by omega), if_neg (by omega), if_pos rfl]
    exact ⟨rfl, hnone⟩
  · unfold numInv
    rw [if_neg (by omega), if_neg (by omega), if_neg (by omega)]
    exact hnone
  · unfold numInv
    rw [if_neg (by omega), if_neg (by omega), if_neg (by omega)]
    exact hnone
  · unfold numInv
    rw [if_neg (by omega), if_neg (by omega), if_neg (by omega)]
    exact hnone
  · unfold numInv
    rw [if_neg (by omega), if_neg (by omega), if_neg (by omega)]
    exact hnone
  · unfold numInv
    rw [if_neg (by omega), if_neg (by omega), if_neg (by omega)]
    exact hnone
  · unfold numInv
    rw [if_neg (by omega), if_neg (by omega), if_neg (by omega)]
    exact hnone

/-- Witness for C6 amended: the single digit 7 in lex mode 0 lexes as a
number token of the proved shape. -/
theorem claim6_witness : numShape [55] ⟨3, 0, 1⟩ :=
  claim6_amended_number_shape 0 (by decide) [55] 0 ⟨3, 0, 1⟩ rfl rfl

theorem drop_cons_getD : ∀ (l : List Nat) (i : Nat), i < l.length →
    l.drop i = l.getD i 0 :: l.drop (i + 1) := by
  intro l
  induction l with
  | nil => intro i h; simp at h
  | cons x xs ih =>
    intro i h
    cases i with
    | zero => simp [List.getD]
    | succ j =>
      have := ih j (by simpa using h)
      simpa [List.getD] using this

/-- Core lemma for C7: a run of the DFA inside an unterminated
single-line string literal produces no token. The three states are the
just-after-open-quote state, the in-body state, and the after-backslash
state; the two quote forms instantiate them as 4, 5, 311 and 18, 19, 312
respectively. -/
theorem lexLoop_unterm (input : List Nat) (q sA sB sE a1 a2 : Nat)
    (hq0 : q ≠ 0) (hq10 : q ≠ 10) (hq92 : q ≠ 92)
    (hA : lexTable sA = ⟨none, [(.cor [.geq q], .advance a1),
      (.cor [.geq 92], .advance sE), (.cand [.gne0, .gne 10], .advance sB)]⟩)
    (hB : lexTable sB = ⟨none, [(.cor [.geq q], .advance a2),
      (.cor [.geq 92], .advance sE), (.cand [.gne0, .gne 10], .advance sB)]⟩)
    (hE : lexTable sE = ⟨none, [(.cand [.gne0, .gne 10], .advance sB)]⟩) :
    ∀ fuel pos ts st,
      ((st = sA ∨ st = sB) ∧ unterm q (input.drop pos) = true) ∨
        (st = sE ∧ unterm q (92 :: input.drop pos) = true) →
      lexLoop fuel st pos ts none input = none := by
  intro fuel
  induction fuel with
  | zero =>
    intro pos ts st hinv
    simp only [lexLoop]
  | succ fuel ih =>
    intro pos ts st hinv
    rw [lexLoop_succ]
    rcases hinv with ⟨hAB, hu⟩ | ⟨hEeq, hu⟩
    · have hacc : (lexTable st).accept = none := by
        rcases hAB with h | h
        · rw [h, hA]
        · rw [h, hB]
      obtain ⟨aq, hrules⟩ : ∃ aq, (lexTable st).rules =
          [(.cor [.geq q], .advance aq), (.cor [.geq 92], .advance sE),
           (.cand [.gne0, .gne 10], .advance sB)] := by
        rcases hAB with h | h
        · exact ⟨a1, by rw [h, hA]⟩
        · exact ⟨a2, by rw [h, hB]⟩
      simp only [hacc]
      obtain ⟨c, hcdef⟩ : ∃ c, input.getD pos 0 = c := ⟨_, rfl⟩
      rw [hcdef]
      by_cases hpos : input.length ≤ pos
      · have hc0 : c = 0 := by
          rw [← hcdef]
          exact List.getD_eq_default _ _ hpos
        subst hc0
        have hstep : lexStep st (decide (input.length ≤ pos)) 0 = none := by
          unfold lexStep
          rw [hrules]
          simp [List.findSome?, evalCond, evalGuard, Ne.symm hq0]
        rw [hstep]
      · push_neg at hpos
        have hdrop := drop_cons_getD input pos hpos
        rw [hcdef] at hdrop
        rw [hdrop] at hu
        unfold unterm at hu
        by_cases h100 : c = 10 ∨ c = 0
        · have hstep : lexStep st (decide (input.length ≤ pos)) c = none := by
            unfold lexStep
            rw [hrules]
            rcases h100 with h | h
            · subst h
              simp [List.findSome?, evalCond, evalGuard, Ne.symm hq10]
            · subst h
              simp [List.findSome?, evalCond, evalGuard, Ne.symm hq0]
          rw [hstep]
        · rw [if_neg (by simpa using h100)] at hu
          have h0 : c ≠ 0 := fun h => h100 (Or.inr h)
          have h10 : c ≠ 10 := fun h => h100 (Or.inl h)
          by_cases hcq : c = q
          · rw [if_pos hcq] at hu
            cases hu
          · rw [if_neg hcq] at hu
            by_cases h92 : c = 92
            · have hstep : lexStep st (decide (input.length ≤ pos)) c = some (.advance sE) := by
                unfold lexStep
                rw [hrules, h92]
                simp [List.findSome?, evalCond, evalGuard, Ne.symm hq92]
              rw [hstep]
              refine ih (pos + 1) ts sE (Or.inr ⟨rfl, ?_⟩)
              rw [if_pos h92] at hu
              unfold unterm
              rw [if_neg (by norm_num), if_neg (by omega : ¬ (92:Nat) = q), if_pos rfl]
              exact hu
            · have hstep : lexStep st (decide (input.length ≤ pos)) c = some (.advance sB) := by
                unfold lexStep
                rw [hrules]
                simp [List.findSome?, evalCond, evalGuard, hcq, h92, h0, h10]
              rw [hstep]
              rw [if_neg h92] at hu
              exact ih (pos + 1) ts sB (Or.inl ⟨Or.inr rfl, hu⟩)
    · have hstE : st = sE := hEeq
      rw [hstE]
      have haccE : (lexTable sE).accept = none := by rw [hE]
      simp only [haccE]
      obtain ⟨c, hcdef⟩ : ∃ c, input.getD pos 0 = c := ⟨_, rfl⟩
      rw [hcdef]
      by_cases hpos : input.length ≤ pos
      · have hc0 : c = 0 := by
          rw [← hcdef]
          exact List.getD_eq_default _ _ hpos
        subst hc0
        have hstep : lexStep sE (decide (input.length ≤ pos)) 0 = none := by
          unfold lexStep
          rw [hE]
          simp [List.findSome?, evalCond, evalGuard]
        rw [hstep]
      · push_neg at hpos
        have hdrop := drop_cons_getD input pos hpos
        rw [hcdef] at hdrop
        rw [hdrop] at hu
        unfold unterm at hu
        rw [if_neg (by norm_num), if_neg (by omega : ¬ (92:Nat) = q), if_pos rfl] at hu
        simp only [] at hu
        by_cases h100 : c = 10 ∨ c = 0
        · have hstep : lexStep sE (decide (input.length ≤ pos)) c = none := by
            unfold lexStep
            rw [hE]
            rcases h100 with h | h
            · subst h
              simp [List.findSome?, evalCond, evalGuard]
            · subst h
              simp [List.findSome?, evalCond, evalGuard]
          rw [hstep]
        · have h0 : c ≠ 0 := fun h => h100 (Or.inr h)
          have h10 : c ≠ 10 := fun h => h100 (Or.inl h)
          have hstep : lexStep sE (decide (input.length ≤ pos)) c = some (.advance sB) := by
            unfold lexStep
            rw [hE]
            simp [List.findSome?, evalCond, evalGuard, h0, h10]
          rw [hstep]
          rw [if_neg (by simpa using h100)] at hu
          exact ih (pos + 1) ts sB (Or.inl ⟨Or.inr rfl, hu⟩)

theorem specConstruct_rest_le : ∀ (l : List Tok) (d : Nat),
    (specConstruct l d).2.1.length ≤ l.length := by
  intro l
  induction l with
  | nil => intro d; simp [specConstruct]
  | cons t rest ih =>
    intro d
    simp only [specConstruct]
    split_ifs with h1 h2 h3 h4 h5 <;> dsimp only
    · exact Nat.le_succ_of_le (ih (d + 1))
    · exact Nat.le_succ _
    · exact Nat.le_refl _
    · exact Nat.le_succ_of_le (ih (d - 1))
    · exact Nat.le_refl _
    · exact Nat.le_succ_of_le (ih d)

/-- C9: the parse function of the modelled driver is total (it is a Lean
function, defined by structurally decreasing recursion with the recovery
loop bounded by the input length as §5 requires) and for every input byte
sequence, including the empty input, input truncated mid-string, and
deeply nested or unmatched braces, it returns a ParseResult whose root is
a Program node; failures appear only as diagnostics. The closed conjuncts
evaluate it on exactly such adversarial inputs. -/
theorem claim9_parse_total :
    (∀ input : List Nat, (specParse input).root.rootSym = sym_program) ∧
    (specParse []).root = PNode.node sym_program [] ∧
    (specParse [34, 97, 98, 99]).root.rootSym = sym_program ∧
    (specParse [123, 123, 123, 123]).root.rootSym = sym_program ∧
    (specParse [125, 125, 125, 125]).root.rootSym = sym_program ∧
    (specParse [125, 125, 125, 125]).diagnostics ≠ [] := by
  refine ⟨fun input => rfl, rfl, rfl, rfl, rfl, by decide⟩

/-- C7: an unterminated single-line string literal (form 1 with double
quotes, form 2 with single quotes) in which a newline or end of input
comes before the closing delimiter never produces a complete string
token: in every lex mode that can start a string, ts_lex returns no token
at it. The modelled driver (the diagnostic and recovery side lives in the
host runtime, not under src/) then reports a diagnostic and a string
token bounded at the error point, and the parse still produces a Program
root: the closed conjuncts evaluate it on the unterminated literal
quote-a-b-c at end of input, whose error point is offset 4. -/
theorem claim7_unterminated_string :
    (∀ mode ∈ [0, 1, 2, 3, 313], ∀ input : List Nat,
      input.getD 0 0 = 34 → unterm 34 (input.drop 1) = true →
      ts_lex mode input 0 = none) ∧
    (∀ mode ∈ [0, 1, 2, 3, 313], ∀ input : List Nat,
      input.getD 0 0 = 39 → unterm 39 (input.drop 1) = true →
      ts_lex mode input 0 = none) ∧
    (∀ input : List Nat, input.getD 0 0 = 34 → unterm 34 (input.drop 1) = true →
      (specParse input).root.rootSym = sym_program) ∧
    specTokens [34, 97, 98, 99] = ([⟨4, 0, 4⟩], [⟨0, 0⟩]) ∧
    (specParse [34, 97, 98, 99]).diagnostics ≠ [] := by
  refine ⟨?_, ?_, fun input _ _ => rfl, by decide, by decide⟩
  · intro mode hmode input hq hu
    have hne : 0 < input.length := by
      rcases input with _ | ⟨c, rest⟩
      · simp [List.getD] at hq
      · simp
    unfold ts_lex
    rw [show input.length + 2 = (input.length + 1) + 1 from rfl, lexLoop_succ]
    have hdec : decide (input.length ≤ 0) = false := decide_eq_false (by omega)
    have haux := lexLoop_unterm input 34 4 5 311 331 330 (by omega) (by omega) (by omega)
      (by decide) (by decide) (by decide)
    fin_cases hmode
    · simp only [lexTable0_accept, hq, hdec]
      rw [(by decide : lexStep 0 false 34 = some (.advance 4))]
      exact haux _ 1 0 4 (Or.inl ⟨Or.inl rfl, hu⟩)
    · simp only [(by decide : (lexTable 1).accept = (none : Option Nat)), hq, hdec]
      rw [(by decide : lexStep 1 false 34 = some (.advance 4))]
      exact haux _ 1 0 4 (Or.inl ⟨Or.inl rfl, hu⟩)
    · simp only [(by decide : (lexTable 2).accept = (none : Option Nat)), hq, hdec]
      rw [(by decide : lexStep 2 false 34 = some (.advance 4))]
      exact haux _ 1 0 4 (Or.inl ⟨Or.inl rfl, hu⟩)
    · simp only [(by decide : (lexTable 3).accept = (none : Option Nat)), hq, hdec]
      rw [(by decide : lexStep 3 false 34 = some (.advance 4))]
      exact haux _ 1 0 4 (Or.inl ⟨Or.inl rfl, hu⟩)
    · simp only [(by decide : (lexTable 313).accept = (none : Option Nat)), hq, hdec]
      rw [(by decide : lexStep 313 false 34 = some (.advance 4))]
      exact haux _ 1 0 4 (Or.inl ⟨Or.inl rfl, hu⟩)
  · intro mode hmode input hq hu
    have hne : 0 < input.length := by
      rcases input with _ | ⟨c, rest⟩
      · simp [List.getD] at hq
      · simp
    unfold ts_lex
    rw [show input.length + 2 = (input.length + 1) + 1 from rfl, lexLoop_succ]
    have hdec : decide (input.length ≤ 0) = false := decide_eq_false (by omega)
    have haux := lexLoop_unterm input 39 18 19 312 333 332 (by omega) (by omega) (by omega)
      (by decide) (by decide) (by decide)
    fin_cases hmode
    · simp only [lexTable0_accept, hq, hdec]
      rw [(by decide : lexStep 0 false 39 = some (.advance 18))]
      exact haux _ 1 0 18 (Or.inl ⟨Or.inl rfl, hu⟩)
    · simp only [(by decide : (lexTable 1).accept = (none : Option Nat)), hq, hdec]
      rw [(by decide : lexStep 1 false 39 = some (.advance 18))]
      exact haux _ 1 0 18 (Or.inl ⟨Or.inl rfl, hu⟩)
    · simp only [(by decide : (lexTable 2).accept = (none : Option Nat)), hq, hdec]
      rw [(by decide : lexStep 2 false 39 = some (.advance 18))]
      exact haux _ 1 0 18 (Or.inl ⟨Or.inl rfl, hu⟩)
    · simp only [(by decide : (lexTable 3).accept = (none : Option Nat)), hq, hdec]
      rw [(by decide : lexStep 3 false 39 = some (.advance 18))]
      exact haux _ 1 0 18 (Or.inl ⟨Or.inl rfl, hu⟩)
    · simp only [(by decide : (lexTable 313).accept = (none : Option Nat)), hq, hdec]
      rw [(by decide : lexStep 313 false 39 = some (.advance 18))]
      exact haux _ 1 0 18 (Or.inl ⟨Or.inl rfl, hu⟩)

/-- Witness for C7 at a concrete unterminated literal: quote a b then end
of input, in lex mode 0. -/
theorem claim7_witness : ts_lex 0 [34, 97, 98] 0 = none :=
  claim7_unterminated_string.1 0 (by decide) [34, 97, 98] rfl rfl

theorem lexStep_shapeA (st x : Nat)
    (h : (lexTable st).rules = [(.cor [.geq 34], .advance x), (.cor [.gne0], .advance 10)])
    (eofb : Bool) (c : Nat) :
    lexStep st eofb c = if c = 34 then some (.advance x)
      else if c = 0 then none else some (.advance 10) := by
  unfold lexStep
  rw [h]
  by_cases h34 : c = 34
  · subst h34
    simp [List.findSome?, evalCond, evalGuard]
  · by_cases h0 : c = 0
    · subst h0
      simp [List.findSome?, evalCond, evalGuard]
    · simp [List.findSome?, evalCond, evalGuard, h34, h0]

theorem lexStep_shapeB (st x : Nat)
    (h : (lexTable st).rules = [(.cor [.geq 34], .advance x),
      (.cor [.geq 92], .advance 309), (.cor [.gne0], .advance 10)])
    (eofb : Bool) (c : Nat) :
    lexStep st eofb c = if c = 34 then some (.advance x)
      else if c = 92 then some (.advance 309)
      else if c = 0 then none else some (.advance 10) := by
  unfold lexStep
  rw [h]
  by_cases h34 : c = 34
  · subst h34
    simp [List.findSome?, evalCond, evalGuard]
  · by_cases h92 : c = 92
    · subst h92
      simp [List.findSome?, evalCond, evalGuard]
    · by_cases h0 : c = 0
      · subst h0
        simp [List.findSome?, evalCond, evalGuard]
      · simp [List.findSome?, evalCond, evalGuard, h34, h92, h0]

theorem lexStep309 (eofb : Bool) (c : Nat) :
    lexStep 309 eofb c = if c = 34 then some (.advance 12)
      else if c = 92 then some (.advance 309)
      else if c = 0 then none else some (.advance 10) := by
  unfold lexStep
  rw [(by decide : (lexTable 309).rules =
    [(.cand [.gne0, .gne 34, .gne 92], .advance 10),
     (.cor [.geq 34], .advance 12), (.cor [.geq 92], .advance 309)])]
  by_cases h34 : c = 34
  · subst h34
    simp [List.findSome?, evalCond, evalGuard]
  · by_cases h92 : c = 92
    · subst h92
      simp [List.findSome?, evalCond, evalGuard]
    · by_cases h0 : c = 0
      · subst h0
        simp [List.findSome?, evalCond, evalGuard]
      · simp [List.findSome?, evalCond, evalGuard, h34, h92, h0]

theorem lexStep334 (eofb : Bool) (c : Nat) : lexStep 334 eofb c = none := by
  unfold lexStep
  rw [(by decide : (lexTable 334).rules = ([] : List (Cond × LexAct)))]
  rfl

/-- Core lemma for C5: a block-string run (states 10, 11, 8, 309, 12, 9,
334, 335) that returns an aux_sym_string_token3 token ends it with three
consecutive double quotes. -/
theorem lexLoop_block (input : List Nat) :
    ∀ fuel st pos ts best,
      st ∈ [10, 11, 8, 309, 12, 9, 334, 335] →
      blockInv input st pos →
      bestP input best →
      ∀ r, lexLoop fuel st pos ts best input = some r → r.sym = 6 →
        threeQuotesAt input r.tend := by
  intro fuel
  induction fuel with
  | zero =>
    intro st pos ts best hmem hinv hbest r hr h6
    simp only [lexLoop] at hr
    exact hbest r hr h6
  | succ fuel ih =>
    intro st pos ts best hmem hinv hbest r hr h6
    rw [lexLoop_succ] at hr
    obtain ⟨c, hcdef⟩ : ∃ c, input.getD pos 0 = c := ⟨_, rfl⟩
    rw [hcdef] at hr
    have hq : c = 34 → qAt input pos := fun h => by
      unfold qAt
      rw [hcdef, h]
    simp only [List.mem_cons, List.not_mem_nil, or_false] at hmem
    rcases hmem with rfl | rfl | rfl | rfl | rfl | rfl | rfl | rfl
    · -- state 10
      rw [(by decide : (lexTable 10).accept = (none : Option Nat))] at hr
      rw [lexStep_shapeB 10 11 (by decide) _ c] at hr
      by_cases h34 : c = 34
      · rw [if_pos h34] at hr
        refine ih 11 (pos + 1) ts best (by decide) ?_ hbest r hr h6
        unfold blockInv
        rw [if_pos (Or.inl rfl)]
        exact ⟨by omega, by simpa using hq h34⟩
      · rw [if_neg h34] at hr
        by_cases h92 : c = 92
        · rw [if_pos h92] at hr
          refine ih 309 (pos + 1) ts best (by decide) ?_ hbest r hr h6
          unfold blockInv
          norm_num
        · rw [if_neg h92] at hr
          by_cases h0 : c = 0
          · rw [if_pos h0] at hr
            exact hbest r hr h6
          · rw [if_neg h0] at hr
            refine ih 10 (pos + 1) ts best (by decide) ?_ hbest r hr h6
            unfold blockInv
            norm_num
    · -- state 11
      unfold blockInv at hinv
      rw [if_pos (Or.inl rfl)] at hinv
      rw [(by decide : (lexTable 11).accept = (none : Option Nat))] at hr
      rw [lexStep_shapeA 11 8 (by decide) _ c] at hr
      by_cases h34 : c = 34
      · rw [if_pos h34] at hr
        refine ih 8 (pos + 1) ts best (by decide) ?_ hbest r hr h6
        unfold blockInv
        rw [if_neg (by norm_num), if_pos (Or.inl rfl)]
        exact ⟨by omega, by simpa using hq h34, by simpa using hinv.2⟩
      · rw [if_neg h34] at hr
        by_cases h0 : c = 0
        · rw [if_pos h0] at hr
          exact hbest r hr h6
        · rw [if_neg h0] at hr
          refine ih 10 (pos + 1) ts best (by decide) ?_ hbest r hr h6
          unfold blockInv
          norm_num
    · -- state 8
      unfold blockInv at hinv
      rw [if_neg (by norm_num), if_pos (Or.inl rfl)] at hinv
      rw [(by decide : (lexTable 8).accept = (none : Option Nat))] at hr
      rw [lexStep_shapeA 8 334 (by decide) _ c] at hr
      by_cases h34 : c = 34
      · rw [if_pos h34] at hr
        refine ih 334 (pos + 1) ts best (by decide) ?_ hbest r hr h6
        unfold blockInv
        rw [if_neg (by norm_num), if_neg (by norm_num), if_pos (Or.inl rfl)]
        refine ⟨by omega, by simpa using hq h34, ?_, ?_⟩
        · have := hinv.2.1
          simpa [show pos + 1 - 2 = pos - 1 by omega] using this
        · have := hinv.2.2
          simpa [show pos + 1 - 3 = pos - 2 by omega] using this
      · rw [if_neg h34] at hr
        by_cases h0 : c = 0
        · rw [if_pos h0] at hr
          exact hbest r hr h6
        · rw [if_neg h0] at hr
          refine ih 10 (pos + 1) ts best (by decide) ?_ hbest r hr h6
          unfold blockInv
          norm_num
    · -- state 309
      rw [(by decide : (lexTable 309).accept = (none : Option Nat))] at hr
      rw [lexStep309] at hr
      by_cases h34 : c = 34
      · rw [if_pos h34] at hr
        refine ih 12 (pos + 1) ts best (by decide) ?_ hbest r hr h6
        unfold blockInv
        rw [if_pos (Or.inr rfl)]
        exact ⟨by omega, by simpa using hq h34⟩
      · rw [if_neg h34] at hr
        by_cases h92 : c = 92
        · rw [if_pos h92] at hr
          refine ih 309 (pos + 1) ts best (by decide) ?_ hbest r hr h6
          unfold blockInv
          norm_num
        · rw [if_neg h92] at hr
          by_cases h0 : c = 0
          · rw [if_pos h0] at hr
            exact hbest r hr h6
          · rw [if_neg h0] at hr
            refine ih 10 (pos + 1) ts best (by decide) ?_ hbest r hr h6
            unfold blockInv
            norm_num
    · -- state 12
      unfold blockInv at hinv
      rw [if_pos (Or.inr rfl)] at hinv
      rw [(by decide : (lexTable 12).accept = (none : Option Nat))] at hr
      rw [lexStep_shapeB 12 9 (by decide) _ c] at hr
      by_cases h34 : c = 34
      · rw [if_pos h34] at hr
        refine ih 9 (pos + 1) ts best (by decide) ?_ hbest r hr h6
        unfold blockInv
        rw [if_neg (by norm_num), if_pos (Or.inr rfl)]
        exact ⟨by omega, by simpa using hq h34, by simpa using hinv.2⟩
      · rw [if_neg h34] at hr
        by_cases h92 : c = 92
        · rw [if_pos h92] at hr
          refine ih 309 (pos + 1) ts best (by decide) ?_ hbest r hr h6
          unfold blockInv
          norm_num
        · rw [if_neg h92] at hr
          by_cases h0 : c = 0
          · rw [if_pos h0] at hr
            exact hbest r hr h6
          · rw [if_neg h0] at hr
            refine ih 10 (pos + 1) ts best (by decide) ?_ hbest r hr h6
            unfold blockInv
            norm_num
    · -- state 9
      unfold blockInv at hinv
      rw [if_neg (by norm_num), if_pos (Or.inr rfl)] at hinv
      rw [(by decide : (lexTable 9).accept = (none : Option Nat))] at hr
      rw [lexStep_shapeA 9 335 (by decide) _ c] at hr
      by_cases h34 : c = 34
      · rw [if_pos h34] at hr
        refine ih 335 (pos + 1) ts best (by decide) ?_ hbest r hr h6
        unfold blockInv
        rw [if_neg (by norm_num), if_neg (by norm_num), if_pos (Or.inr rfl)]
        refine ⟨by omega, by simpa using hq h34, ?_, ?_⟩
        · have := hinv.2.1
          simpa [show pos + 1 - 2 = pos - 1 by omega] using this
        · have := hinv.2.2
          simpa [show pos + 1 - 3 = pos - 2 by omega] using this
      · rw [if_neg h34] at hr
        by_cases h0 : c = 0
        · rw [if_pos h0] at hr
          exact hbest r hr h6
        · rw [if_neg h0] at hr
          refine ih 10 (pos + 1) ts best (by decide) ?_ hbest r hr h6
          unfold blockInv
          norm_num
    · -- state 334
      unfold blockInv at hinv
      rw [if_neg (by norm_num), if_neg (by norm_num), if_pos (Or.inl rfl)] at hinv
      rw [(by decide : (lexTable 334).accept = some 6)] at hr
      rw [lexStep334 _ c] at hr
      have hreq : r = ⟨6, ts, pos⟩ := by
        cases hr
        rfl
      subst hreq
      exact hinv
    · -- state 335
      unfold blockInv at hinv
      rw [if_neg (by norm_num), if_neg (by norm_num), if_pos (Or.inr rfl)] at hinv
      rw [(by decide : (lexTable 335).accept = some 6)] at hr
      have hbest1 : bestP input (some ⟨6, ts, pos⟩) := by
        intro b hb h6b
        rw [Option.some.injEq] at hb
        rw [← hb]
        exact hinv
      rw [lexStep_shapeA 335 334 (by decide) _ c] at hr
      by_cases h34 : c = 34
      · rw [if_pos h34] at hr
        refine ih 334 (pos + 1) ts _ (by decide) ?_ hbest1 r hr h6
        unfold blockInv
        rw [if_neg (by norm_num), if_neg (by norm_num), if_pos (Or.inl rfl)]
        obtain ⟨h3, hq1, hq2, hq3⟩ := hinv
        refine ⟨by omega, by simpa using hq h34, ?_, ?_⟩
        · simpa [show pos + 1 - 2 = pos - 1 by omega] using hq1
        · simpa [show pos + 1 - 3 = pos - 2 by omega] using hq2
      · rw [if_neg h34] at hr
        by_cases h0 : c = 0
        · rw [if_pos h0] at hr
          exact hbest1 r hr h6
        · rw [if_neg h0] at hr
          refine ih 10 (pos + 1) ts _ (by decide) ?_ hbest1 r hr h6
          unfold blockInv
          norm_num

/-- C5 counterexample: scanning the section 8 example literal produces a
single aux_sym_string_token3 token spanning the entire literal, offsets 0
to 31; the hash character at offset 10 lies inside that one token, and
the token's content between the delimiters is not the claimed stripped
value Hello newline World newline: the scanner does not strip the line
comment from the string, it keeps hash not shown as ordinary content. -/
theorem claim5_counterexample :
    ts_lex 0 inTripleLit 0 = some ⟨string_token3, 0, 31⟩ ∧
    inTripleLit.length = 31 ∧
    inTripleLit.getD 10 0 = 35 ∧
    (inTripleLit.drop 3).take 25 ≠
      [72, 101, 108, 108, 111, 32, 10, 87, 111, 114, 108, 100, 10] := by
  refine ⟨rfl, rfl, rfl, by decide⟩

/-- C5 amended: the scanner ends a triple-double-quoted block string only
at three consecutive double quotes, never at one or two: every
aux_sym_string_token3 token produced from an input starting with the
three opening quotes ends with three consecutive quote characters. The
hash character inside the literal is not a comment at the token level:
the section 8 example yields the single block-string token computed in
the closed conjunct, containing the hash comment text unstripped. -/
theorem ts_lex_first_step (mode : Nat) (input : List Nat) (m : Nat)
    (hm : input.length + 2 = m + 1)
    (hacc : (lexTable mode).accept = none)
    (h0 : input.getD 0 0 = 34)
    (hd0 : decide (input.length ≤ 0) = false)
    (hstep : lexStep mode false 34 = some (.advance 4)) :
    ts_lex mode input 0 = lexLoop m 4 1 0 none input := by
  unfold ts_lex
  rw [hm, lexLoop_succ, hacc, h0, hd0, hstep]

theorem lexLoop_step4 (input : List Nat) (m : Nat)
    (h1 : input.getD 1 0 = 34) (hd1 : decide (input.length ≤ 1) = false) :
    lexLoop (m + 1) 4 1 0 none input = lexLoop m 331 2 0 none input := by
  rw [lexLoop_succ, (by decide : (lexTable 4).accept = (none : Option Nat)),
    h1, hd1, (by decide : lexStep 4 false 34 = some (.advance 331))]

theorem lexLoop_step331 (input : List Nat) (m : Nat)
    (h2 : input.getD 2 0 = 34) (hd2 : decide (input.length ≤ 2) = false) :
    lexLoop (m + 1) 331 2 0 none input =
      lexLoop m 10 3 0 (some ⟨4, 0, 2⟩) input := by
  rw [lexLoop_succ, (by decide : (lexTable 331).accept = some 4),
    h2, hd2, (by decide : lexStep 331 false 34 = some (.advance 10))]

/-- C5 amended: the scanner ends a triple-double-quoted block string only
at three consecutive double quotes, never at one or two: every
aux_sym_string_token3 token produced from an input starting with the
three opening quotes ends with three consecutive quote characters. The
hash character inside the literal is not a comment at the token level:
the section 8 example yields the single block-string token computed in
the closed conjunct, containing the hash comment text unstripped. -/
theorem claim5_amended_block_string :
    (∀ mode ∈ [0, 1, 2, 3, 313], ∀ input : List Nat,
      input.getD 0 0 = 34 → input.getD 1 0 = 34 → input.getD 2 0 = 34 →
      ∀ r, ts_lex mode input 0 = some r → r.sym = string_token3 →
        threeQuotesAt input r.tend) ∧
    ts_lex 0 inTripleLit 0 = some ⟨string_token3, 0, 31⟩ := by
  refine ⟨?_, rfl⟩
  intro mode hmode input h0 h1 h2 r hlex h6
  have hlen : 2 < input.length := by
    by_contra h
    push_neg at h
    rw [List.getD_eq_default _ _ h] at h2
    exact absurd h2 (by norm_num)
  obtain ⟨m, hm⟩ : ∃ m, input.length + 2 = m + 1 + 1 + 1 :=
    ⟨input.length - 1, by omega⟩
  have hd0 : decide (input.length ≤ 0) = false := decide_eq_false (by omega)
  have hd1 : decide (input.length ≤ 1) = false := decide_eq_false (by omega)
  have hd2 : decide (input.length ≤ 2) = false := decide_eq_false (by omega)
  have hbp : bestP input (some ⟨4, 0, 2⟩) := by
    intro b hb h6b
    rw [Option.some.injEq] at hb
    rw [← hb] at h6b
    exact absurd h6b (by norm_num)
  have hfinish : ∀ r, lexLoop m 10 3 0 (some ⟨4, 0, 2⟩) input = some r →
      r.sym = string_token3 → threeQuotesAt input r.tend := fun r hr h6r =>
    lexLoop_block input m 10 3 0 (some ⟨4, 0, 2⟩) (by decide)
      (by unfold blockInv; norm_num) hbp r hr h6r
  fin_cases hmode
  · rw [ts_lex_first_step 0 input (m + 1 + 1) (by omega) lexTable0_accept h0 hd0
      (by decide), lexLoop_step4 input (m + 1) h1 hd1,
      lexLoop_step331 input m h2 hd2] at hlex
    exact hfinish r hlex h6
  · rw [ts_lex_first_step 1 input (m + 1 + 1) (by omega) (by decide) h0 hd0
      (by decide), lexLoop_step4 input (m + 1) h1 hd1,
      lexLoop_step331 input m h2 hd2] at hlex
    exact hfinish r hlex h6
  · rw [ts_lex_first_step 2 input (m + 1 + 1) (by omega) (by decide) h0 hd0
      (by decide), lexLoop_step4 input (m + 1) h1 hd1,
      lexLoop_step331 input m h2 hd2] at hlex
    exact hfinish r hlex h6
  · rw [ts_lex_first_step 3 input (m + 1 + 1) (by omega) (by decide) h0 hd0
      (by decide), lexLoop_step4 input (m + 1) h1 hd1,
      lexLoop_step331 input m h2 hd2] at hlex
    exact hfinish r hlex h6
  · rw [ts_lex_first_step 313 input (m + 1 + 1) (by omega) (by decide) h0 hd0
      (by decide), lexLoop_step4 input (m + 1) h1 hd1,
      lexLoop_step331 input m h2 hd2] at hlex
    exact hfinish r hlex h6

/-- Witness for C5 amended at a concrete block literal with one body
character. -/
theorem claim5_witness : threeQuotesAt [34, 34, 34, 97, 34, 34, 34] 7 :=
  claim5_amended_block_string.1 0 (by decide) [34, 34, 34, 97, 34, 34, 34]
    rfl rfl rfl ⟨6, 0, 7⟩ rfl rfl

end Amble
